import Mathlib

/-!
Verification development for the `export` unit of the indication-expansion
repository (`src/export.py`): branded PDF report generation.

The embedding is shallow: the FPDF drawing surface is modelled as a list of
pages, each page a list of drawing commands (`Cmd`).  A command records the
arguments the Python code passes to the corresponding FPDF primitive
(`cell`, `multi_cell`, `rect`, `line`, `image`, colour/font setters).  The
cursor `y`, the last cell height (used by argument-less `ln()`), and the
page list are threaded explicitly through every operation, mirroring FPDF's
mutable object state.  Word-wrap metrics of `multi_cell` are outside the
embedding (they depend on font metrics); `multi_cell` advances the cursor by
line-height times the number of explicit newline-separated lines, which no
claim depends on.  The filesystem test `Path(p).exists()` is modelled by a
boolean oracle `disk : String → Bool`, and `datetime.now().strftime(...)` by
an explicit `now : String` argument.
-/

/-! ## Python string primitives, modelled over `List Char`
Python `str` slicing, `replace`, `strip` and `join` operate on code points,
which is exactly `String.data : List Char`. -/

/-- Python `s[:n]`: the first `n` code points of `s`. -/
def pyTruncate (n : Nat) (s : String) : String := ⟨s.data.take n⟩

/-- List form of Python `str.replace` (all occurrences, left-to-right,
non-overlapping), structurally recursive on a fuel argument so that it
computes inside the kernel.  The fuel is the input length, which suffices:
every recursive call consumes at least one character.  All call sites in
`src/export.py` pass a non-empty pattern; for an empty pattern this returns
the input unchanged. -/
def replaceCharsAux (pat rep : List Char) : Nat → List Char → List Char
  | _, [] => []
  | 0, l => l
  | fuel + 1, c :: cs =>
    if pat ≠ [] ∧ pat.isPrefixOf (c :: cs) = true then
      rep ++ replaceCharsAux pat rep fuel ((c :: cs).drop pat.length)
    else
      c :: replaceCharsAux pat rep fuel cs

/-- Python `s.replace(pat, rep)`. -/
def pyReplace (s pat rep : String) : String :=
  ⟨replaceCharsAux pat.data rep.data s.data.length s.data⟩

/-- Python `s.strip()`: remove leading and trailing whitespace. -/
def pyStrip (s : String) : String :=
  ⟨(((s.data.dropWhile Char.isWhitespace).reverse).dropWhile Char.isWhitespace).reverse⟩

/-- Python `sep.join(xs)`. -/
def pyJoin (sep : String) : List String → String
  | [] => ""
  | [x] => x
  | x :: y :: xs => x ++ sep ++ pyJoin sep (y :: xs)

/-- Split a character list at newline characters. -/
def splitNlChars : List Char → List (List Char)
  | [] => [[]]
  | c :: cs =>
    match splitNlChars cs with
    | [] => [[]]
    | h :: t => if c = '\n' then [] :: h :: t else (c :: h) :: t

/-- The newline-separated lines of a string (Python `s.split('\n')`). -/
def pyLines (s : String) : List String := (splitNlChars s.data).map List.asString

/-- Substring test on character lists. -/
def charsHaveInfix (pat : List Char) : List Char → Bool
  | [] => pat.isEmpty
  | c :: cs => pat.isPrefixOf (c :: cs) || charsHaveInfix pat cs

/-- Python `pat in s`. -/
def hasSubstr (s pat : String) : Bool := charsHaveInfix pat.data s.data

/-! ## Brand colours (src/export.py lines 14-19) -/

def DEEP_BLUE_RGB : Nat × Nat × Nat := (10, 30, 74)
def VIOLET_RGB : Nat × Nat × Nat := (162, 77, 190)
def MAGENTA_PINK_RGB : Nat × Nat × Nat := (224, 79, 138)
def LIGHT_BLUE_RGB : Nat × Nat × Nat := (179, 224, 242)
def SOFT_LAVENDER_RGB : Nat × Nat × Nat := (227, 217, 242)
def WHITE_RGB : Nat × Nat × Nat := (255, 255, 255)

/-! ## Drawing commands and PDF object state -/

/-- One drawing command, recording the arguments passed to the FPDF
primitive.  `textCell` fields are `(w, h, txt, border, ln, align, fill)`
matching `FPDF.cell`; cells are drawn at the implicit cursor so they carry
no coordinates, while `rect`/`lineSeg`/`image` take explicit coordinates as
in the source. -/
inductive Cmd where
  | setFillColor (r g b : Nat)
  | setTextColor (r g b : Nat)
  | setDrawColor (r g b : Nat)
  | setFont (family : String) (style : String) (size : Nat)
  | rect (x y w h : Int) (style : String)
  | lineSeg (x1 y1 x2 y2 : Int)
  | image (path : String) (x y w : Int)
  | textCell (w h : Int) (txt : String) (border : Nat) (ln : Nat) (align : String) (fill : Bool)
  | multiCell (w h : Int) (txt : String)
  deriving DecidableEq, Repr

/-- The FPDF object state: `ExcelraPDF(FPDF)` from src/export.py line 22.
`pages` holds finished pages (footer already stamped), `cur` the page being
drawn (header already stamped), `pageNo` the current page number, `y` the
vertical cursor and `lasth` the height of the last printed cell (used by the
argument-less `ln()`).  The horizontal cursor is not modelled: no recorded
command payload depends on it. -/
structure ExcelraPDF where
  logo_path : Option String
  pages : List (List Cmd)
  cur : List Cmd
  pageNo : Nat
  y : Int
  lasth : Int
  deriving DecidableEq, Repr

/-- A4 page height in layout units (mm). -/
def PAGE_H : Int := 297

/-- Append a drawing command to the current page. -/
def ExcelraPDF.emit (c : Cmd) (p : ExcelraPDF) : ExcelraPDF :=
  { p with cur := p.cur ++ [c] }

def ExcelraPDF.set_fill_color (c : Nat × Nat × Nat) (p : ExcelraPDF) : ExcelraPDF :=
  p.emit (.setFillColor c.1 c.2.1 c.2.2)

def ExcelraPDF.set_text_color (c : Nat × Nat × Nat) (p : ExcelraPDF) : ExcelraPDF :=
  p.emit (.setTextColor c.1 c.2.1 c.2.2)

def ExcelraPDF.set_draw_color (c : Nat × Nat × Nat) (p : ExcelraPDF) : ExcelraPDF :=
  p.emit (.setDrawColor c.1 c.2.1 c.2.2)

def ExcelraPDF.set_font (family style : String) (size : Nat) (p : ExcelraPDF) : ExcelraPDF :=
  p.emit (.setFont family style size)

def ExcelraPDF.rect (x y w h : Int) (style : String) (p : ExcelraPDF) : ExcelraPDF :=
  p.emit (.rect x y w h style)

def ExcelraPDF.draw_line (x1 y1 x2 y2 : Int) (p : ExcelraPDF) : ExcelraPDF :=
  p.emit (.lineSeg x1 y1 x2 y2)

def ExcelraPDF.draw_image (path : String) (x y w : Int) (p : ExcelraPDF) : ExcelraPDF :=
  p.emit (.image path x y w)

/-- FPDF `cell(w, h, txt, border, ln, align, fill)`: records the command,
always remembers the cell height, and on `ln = 1` moves the cursor down by
`h`. -/
def ExcelraPDF.cell (w h : Int) (txt : String) (border ln : Nat) (align : String)
    (fill : Bool) (p : ExcelraPDF) : ExcelraPDF :=
  let p := p.emit (.textCell w h txt border ln align fill)
  let p := { p with lasth := h }
  if ln = 1 then { p with y := p.y + h } else p

/-- FPDF `multi_cell(w, h, txt)`: records the command and advances the
cursor by `h` per explicit line (word-wrap metrics are not modelled). -/
def ExcelraPDF.multi_cell (w h : Int) (txt : String) (p : ExcelraPDF) : ExcelraPDF :=
  let p := p.emit (.multiCell w h txt)
  { p with y := p.y + h * (pyLines txt).length, lasth := h }

/-- FPDF `ln(h)`: move the cursor down by `h`. -/
def ExcelraPDF.lnBy (h : Int) (p : ExcelraPDF) : ExcelraPDF :=
  { p with y := p.y + h }

/-- FPDF `ln()` with no argument: move down by the last cell height. -/
def ExcelraPDF.lnAuto (p : ExcelraPDF) : ExcelraPDF :=
  { p with y := p.y + p.lasth }

/-- FPDF `set_y(v)`: a negative `v` positions from the bottom of the page. -/
def ExcelraPDF.set_y (v : Int) (p : ExcelraPDF) : ExcelraPDF :=
  { p with y := if v < 0 then PAGE_H + v else v }

/-- FPDF `set_xy(x, y)`: only the vertical coordinate is modelled. -/
def ExcelraPDF.set_xy (_x v : Int) (p : ExcelraPDF) : ExcelraPDF :=
  { p with y := if v < 0 then PAGE_H + v else v }

/-- FPDF `set_x(x)`: the horizontal cursor is not modelled. -/
def ExcelraPDF.set_x (_x : Int) (p : ExcelraPDF) : ExcelraPDF := p

/-! ## ExcelraPDF branding methods (src/export.py lines 29-116) -/

/-- `ExcelraPDF.header` (lines 29-51): branded header band drawn on every
page; the logo is embedded only when a path is configured and the file
exists on disk (`disk` models `Path(...).exists()`). -/
def ExcelraPDF.header (disk : String → Bool) (p : ExcelraPDF) : ExcelraPDF :=
  let p := p.set_fill_color LIGHT_BLUE_RGB
  let p := p.rect 0 0 210 25 "F"
  let p := match p.logo_path with
    | some path => if disk path then p.draw_image path 10 5 30 else p
    | none => p
  let p := p.set_font "Helvetica" "B" 12
  let p := p.set_text_color DEEP_BLUE_RGB
  let p := p.set_xy 45 8
  let p := p.cell 0 5 "Indication Expansion Analysis" 0 0 "L" false
  let p := p.set_font "Helvetica" "" 9
  let p := p.set_text_color VIOLET_RGB
  let p := p.set_xy 45 14
  let p := p.cell 0 5 "Powered by Excelra GRIP Platform" 0 0 "L" false
  p.lnBy 25

/-- `ExcelraPDF.footer` (lines 53-69): separator line, footer text and
right-aligned page number, stamped when a page is finalized. -/
def ExcelraPDF.footer (p : ExcelraPDF) : ExcelraPDF :=
  let p := p.set_y (-20)
  let p := p.set_draw_color VIOLET_RGB
  let p := p.draw_line 10 p.y 200 p.y
  let p := p.set_font "Helvetica" "" 8
  let p := p.set_text_color DEEP_BLUE_RGB
  let p := p.lnBy 3
  let p := p.cell 0 5 "www.excelra.com | Where data means more" 0 0 "C" false
  let p := p.set_xy (-30) (-15)
  p.cell 0 5 ("Page " ++ toString p.pageNo) 0 0 "R" false

/-- FPDF `add_page()`: finalize the open page (stamping its footer), then
open a fresh page with the header stamped — FPDF invokes `footer` when a
page is closed and `header` when a page is started. -/
def ExcelraPDF.add_page (disk : String → Bool) (p : ExcelraPDF) : ExcelraPDF :=
  let p :=
    if p.pageNo = 0 then p
    else
      let p := p.footer
      { p with pages := p.pages ++ [p.cur], cur := [] }
  let p := { p with pageNo := p.pageNo + 1, y := 10, lasth := 0 }
  p.header disk

/-- FPDF `output()`: finalize the last open page and return the document as
the list of finished pages (the byte buffer of the claims). -/
def ExcelraPDF.output (p : ExcelraPDF) : List (List Cmd) :=
  let p := p.footer
  p.pages ++ [p.cur]

/-- `ExcelraPDF.section_title` (lines 71-81). -/
def ExcelraPDF.section_title (title : String) (p : ExcelraPDF) : ExcelraPDF :=
  let p := p.set_font "Helvetica" "B" 14
  let p := p.set_text_color DEEP_BLUE_RGB
  let p := p.lnBy 5
  let p := p.cell 0 10 title 0 1 "L" false
  let p := p.set_draw_color VIOLET_RGB
  let p := p.draw_line 10 p.y 80 p.y
  p.lnBy 5

/-- `ExcelraPDF.subsection_title` (lines 83-88). -/
def ExcelraPDF.subsection_title (title : String) (p : ExcelraPDF) : ExcelraPDF :=
  let p := p.set_font "Helvetica" "B" 11
  let p := p.set_text_color VIOLET_RGB
  let p := p.lnBy 3
  p.cell 0 8 title 0 1 "L" false

/-- `ExcelraPDF.body_text` (lines 90-94). -/
def ExcelraPDF.body_text (text : String) (p : ExcelraPDF) : ExcelraPDF :=
  let p := p.set_font "Helvetica" "" 10
  let p := p.set_text_color DEEP_BLUE_RGB
  p.multi_cell 0 5 text

/-- `ExcelraPDF.metric_box` (lines 96-116): filled bordered box with a bold
value line and a small label line. -/
def ExcelraPDF.metric_box (label : String) (value : String) (x y : Int)
    (width : Int) (p : ExcelraPDF) : ExcelraPDF :=
  let p := p.set_fill_color SOFT_LAVENDER_RGB
  let p := p.rect x y width 20 "F"
  let p := p.set_draw_color VIOLET_RGB
  let p := p.rect x y width 20 "D"
  let p := p.set_xy x (y + 2)
  let p := p.set_font "Helvetica" "B" 14
  let p := p.set_text_color VIOLET_RGB
  let p := p.cell width 8 value 0 0 "C" false
  let p := p.set_xy x (y + 11)
  let p := p.set_font "Helvetica" "" 7
  let p := p.set_text_color DEEP_BLUE_RGB
  p.cell width 5 label 0 0 "C" false

/-- A fresh `ExcelraPDF(logo_path)` object (lines 25-27). -/
def ExcelraPDF.mkNew (logo_path : Option String) : ExcelraPDF :=
  { logo_path := logo_path, pages := [], cur := [], pageNo := 0, y := 0, lasth := 0 }

/-! ## Data model -/

/-- One row of the aggregate indication table handed to
`generate_indication_discovery_pdf` (a pandas row in the source).  The nine
optional evidence-flag columns are modelled as the association list
`extra` (column name, integer value); a column is "present in the row
index" iff it has an entry here. -/
structure IndicationRow where
  indication_name : String
  therapeutic_area : String
  frequency_score : Int
  relevancy : String
  extra : List (String × Int)
  deriving DecidableEq, Repr

/-- `len(freq_df[freq_df['relevancy'] == 'Yes'])` (src/export.py line 144). -/
def validatedCount (freq_df : List IndicationRow) : Nat :=
  (freq_df.filter (fun r => r.relevancy == "Yes")).length

/-- `len(freq_df[freq_df['relevancy'] == 'Partial'])` (line 145). -/
def partialCount (freq_df : List IndicationRow) : Nat :=
  (freq_df.filter (fun r => r.relevancy == "Partial")).length

/-- Rows whose `relevancy` is `'No'` — the "other" bucket of the spec's
count identity; the source never computes it explicitly. -/
def otherCount (freq_df : List IndicationRow) : Nat :=
  (freq_df.filter (fun r => r.relevancy == "No")).length

/-- `f'{max_score}/9'` value part: pandas `Series.max()` is NaN on an empty
series and the f-string renders it `'nan'`; on a non-empty series it is the
maximum, rendered as a plain integer. -/
def pandasMaxStr (scores : List Int) : String :=
  match scores.max? with
  | none => "nan"
  | some m => toString m

/-- Round `a / b` (with `b > 0`) to the nearest integer, ties to even —
the rounding of Python's float formatting at representable midpoints (the
spec's §9 open question; every value a claim exercises is exact). -/
def roundHalfEvenDiv (a b : Int) : Int :=
  let q := a.ediv b
  let r := a.emod b
  if 2 * r < b then q
  else if b < 2 * r then q + 1
  else if q.emod 2 = 0 then q else q + 1

/-- Render an integer number of tenths as a one-decimal literal. -/
def fmt1 (m : Int) : String :=
  let n := m.natAbs
  let s := toString (n / 10) ++ "." ++ toString (n % 10)
  if m < 0 then "-" ++ s else s

/-- `f'{avg_score:.1f}'` value part, where `avg_score` is pandas
`Series.mean()`: NaN (rendered `'nan'`) on an empty series, otherwise the
mean formatted to one decimal. -/
def fmtMean1 (scores : List Int) : String :=
  if scores.isEmpty then "nan"
  else fmt1 (roundHalfEvenDiv (10 * scores.sum) scores.length)

/-- The nine evidence-source columns (src/export.py lines 197-201). -/
def evidence_cols : List String :=
  ["literature_mining", "clinical_trials", "structure_similarity",
   "adverse_events", "gene_expression", "disease_gene_signature",
   "drug_disease_signature", "interactome", "gwas"]

/-- `sum([row.get(col, 0) for col in [...] if col in row.index])`
(lines 197-201). -/
def evidenceCount (r : IndicationRow) : Int :=
  ((evidence_cols.filter (fun c => (r.extra.lookup c).isSome)).map
    (fun c => (r.extra.lookup c).getD 0)).sum

/-- Body of the table-row loop (lines 187-203). -/
def drawIndicationRow (row : IndicationRow) (pdf : ExcelraPDF) : ExcelraPDF :=
  let pdf := pdf.set_fill_color SOFT_LAVENDER_RGB
  let pdf := pdf.cell 60 7 (pyTruncate 35 row.indication_name) 1 0 "L" false
  let pdf := pdf.cell 45 7 (pyTruncate 25 row.therapeutic_area) 1 0 "L" false
  let pdf := pdf.cell 25 7 (toString row.frequency_score ++ "/9") 1 0 "C" false
  let pdf := pdf.cell 30 7 row.relevancy 1 0 "C" false
  let pdf := pdf.cell 30 7 (toString (evidenceCount row) ++ "/9") 1 0 "C" false
  pdf.lnAuto

/-- The executive-summary paragraph (lines 149-151). -/
def summaryText (total : Nat) (target : String) (validated partialN : Nat) : String :=
  "Using Excelra\x27s multi-source approach, we have systematically identified " ++
  toString total ++ " potential indications for " ++ target ++
  " inhibitor expansion. Each indication has been scored across 9 scientific approaches and validated against published literature.\n\nOf the " ++
  toString total ++ " indications identified, " ++ toString validated ++
  " show high-confidence validation with strong clinical or preclinical evidence, while " ++
  toString partialN ++ " show partial evidence requiring further validation."

/-- The fixed methodology block (lines 209-221). -/
def methodologyText : String :=
  "This analysis integrates evidence from nine complementary scientific approaches:\n\n1. Literature Mining - Systematic extraction of target-disease associations from published literature\n2. Clinical Trials - Analysis of clinical trial data for related compounds and mechanisms\n3. Structure Similarity - Identification of indications from structurally similar compounds\n4. Adverse Events - Mining of adverse event databases for therapeutic signal detection\n5. Gene Expression - Analysis of disease-specific gene expression signatures\n6. Disease-Gene Signatures - Matching of target biology to disease molecular profiles\n7. Drug-Disease Signatures - Connectivity mapping between drug and disease signatures\n8. Interactome Analysis - Network-based prediction using protein-protein interactions\n9. GWAS - Genetic association evidence from genome-wide studies\n\nEach indication receives a frequency score (1-9) based on the number of approaches providing supporting evidence."

/-- The fixed next-steps block (lines 229-239). -/
def nextStepsText : String :=
  "1. Review the top-ranked indications with your research and business development teams\n\n2. Select 3-5 priority indications for deep-dive analysis including:\n   - Detailed biological rationale\n   - Competitive landscape assessment\n   - Clinical development considerations\n   - Commercial opportunity sizing\n\n3. Contact Excelra to commission comprehensive indication dossiers with primary literature review, KOL insights, and detailed competitive intelligence.\n\nFor more information, visit www.excelra.com or contact your Excelra representative."

/-- `generate_indication_discovery_pdf` (src/export.py lines 119-244).
Returns the finished document (list of pages of commands) together with the
caller's table as it stands after the call — the source performs no write
to `freq_df`, so the second component is the argument passed through. -/
def generate_indication_discovery_pdf (target : String) (freq_df : List IndicationRow)
    (logo_path : Option String) (disk : String → Bool) (now : String) :
    List (List Cmd) × List IndicationRow :=
  let pdf := ExcelraPDF.mkNew logo_path
  let pdf := pdf.add_page disk
  let pdf := pdf.set_font "Helvetica" "B" 18
  let pdf := pdf.set_text_color DEEP_BLUE_RGB
  let pdf := pdf.cell 0 15 ("Indication Discovery Report: " ++ target) 0 1 "C" false
  let pdf := pdf.set_font "Helvetica" "" 10
  let pdf := pdf.set_text_color VIOLET_RGB
  let pdf := pdf.cell 0 5 ("Generated: " ++ now) 0 1 "C" false
  let pdf := pdf.lnBy 10
  let pdf := pdf.section_title "Executive Summary"
  let total := freq_df.length
  let validated := validatedCount freq_df
  let partialN := partialCount freq_df
  let scores := freq_df.map (fun r => r.frequency_score)
  let pdf := pdf.body_text (summaryText total target validated partialN)
  let pdf := pdf.lnBy 5
  let y_pos := pdf.y
  let pdf := pdf.metric_box "Total Indications" (toString total) 10 y_pos 35
  let pdf := pdf.metric_box "Validated" (toString validated) 50 y_pos 35
  let pdf := pdf.metric_box "Partial" (toString partialN) 90 y_pos 35
  let pdf := pdf.metric_box "Top Score" (pandasMaxStr scores ++ "/9") 130 y_pos 35
  let pdf := pdf.metric_box "Avg Score" (fmtMean1 scores ++ "/9") 170 y_pos 35
  let pdf := pdf.lnBy 30
  let pdf := pdf.section_title "Top Ranked Indications"
  let pdf := pdf.set_fill_color VIOLET_RGB
  let pdf := pdf.set_text_color WHITE_RGB
  let pdf := pdf.set_font "Helvetica" "B" 9
  let pdf := (List.zip ([60, 45, 25, 30, 30] : List Int)
      ["Indication", "Therapeutic Area", "Score", "Validation", "Evidence"]).foldl
      (fun p wh => p.cell wh.1 8 wh.2 1 0 "C" true) pdf
  let pdf := pdf.lnAuto
  let pdf := pdf.set_font "Helvetica" "" 8
  let pdf := pdf.set_text_color DEEP_BLUE_RGB
  let top_indications := freq_df.take 10
  let pdf := top_indications.foldl (fun p row => drawIndicationRow row p) pdf
  let pdf := pdf.add_page disk
  let pdf := pdf.section_title "Methodology"
  let pdf := pdf.body_text methodologyText
  let pdf := pdf.lnBy 10
  let pdf := pdf.section_title "Recommended Next Steps"
  let pdf := pdf.body_text nextStepsText
  (pdf.output, freq_df)

/-- An element of the `key_evidence` sequence. -/
structure EvidenceItem where
  source : String
  finding : String
  confidence : String
  deriving DecidableEq, Repr

/-- An element of the `competitive_context` sequence. -/
structure Competitor where
  company : String
  drug : String
  phase : String
  status : String
  deriving DecidableEq, Repr

/-- The `dossier_data` dict handed to `generate_deep_dive_pdf`.  Each field
is optional: `none` models the key being absent from the dict, and a lookup
of an absent key raises `KeyError` (modelled by `getKey`). -/
structure Dossier where
  frequency_score : Option Int
  validation_status : Option String
  unmet_need : Option String
  market_size : Option String
  biological_rationale : Option String
  key_evidence : Option (List EvidenceItem)
  competitive_context : Option (List Competitor)
  key_biomarkers : Option (List String)
  recommended_actions : Option (List String)
  deriving DecidableEq, Repr

/-- `dossier_data[k]`: a missing key raises `KeyError` (Python dict
subscription); there is no defaulting. -/
def getKey {α : Type} (k : String) : Option α → Except String α
  | some v => Except.ok v
  | none => Except.error ("KeyError: " ++ k)

/-- Body of the evidence loop (lines 294-297). -/
def drawEvidenceItem (item : EvidenceItem) (pdf : ExcelraPDF) : ExcelraPDF :=
  let pdf := pdf.subsection_title item.source
  let pdf := pdf.body_text (item.finding ++ " (Confidence: " ++ item.confidence ++ ")")
  pdf.lnBy 2

/-- Body of the competitor-row loop (lines 318-323). -/
def drawCompetitorRow (item : Competitor) (pdf : ExcelraPDF) : ExcelraPDF :=
  let pdf := pdf.cell 50 7 item.company 1 0 "L" false
  let pdf := pdf.cell 50 7 item.drug 1 0 "L" false
  let pdf := pdf.cell 40 7 item.phase 1 0 "C" false
  let pdf := pdf.cell 50 7 item.status 1 0 "L" false
  pdf.lnAuto

/-- The Competitive Landscape section (lines 299-323): section title, then
— only when the sequence is truthy, i.e. non-empty — the table header row
and one row per competitor.  Nothing else is drawn when it is empty. -/
def drawCompetitiveLandscape (ctx : List Competitor) (pdf : ExcelraPDF) : ExcelraPDF :=
  let pdf := pdf.lnBy 5
  let pdf := pdf.section_title "Competitive Landscape"
  if ctx.isEmpty then pdf
  else
    let pdf := pdf.set_font "Helvetica" "B" 9
    let pdf := pdf.set_fill_color VIOLET_RGB
    let pdf := pdf.set_text_color WHITE_RGB
    let pdf := (List.zip ([50, 50, 40, 50] : List Int)
        ["Company", "Drug", "Phase", "Status"]).foldl
        (fun p wh => p.cell wh.1 7 wh.2 1 0 "C" true) pdf
    let pdf := pdf.lnAuto
    let pdf := pdf.set_font "Helvetica" "" 9
    let pdf := pdf.set_text_color DEEP_BLUE_RGB
    ctx.foldl (fun p item => drawCompetitorRow item p) pdf

/-- Body of the recommended-actions loop (lines 336-338); `i` is the
1-based position from `enumerate(..., 1)`. -/
def drawAction (i : Nat) (action : String) (pdf : ExcelraPDF) : ExcelraPDF :=
  let pdf := pdf.body_text (toString i ++ ". " ++ action)
  pdf.lnBy 2

/-- `generate_deep_dive_pdf` (src/export.py lines 247-354).  On success
returns the finished document together with the caller's dict as it stands
after the call (the source rebinds only the local name `rationale`; it
never writes into `dossier_data`).  A missing key propagates as
`Except.error` — the Python `KeyError`. -/
def generate_deep_dive_pdf (target indication : String) (dossier_data : Dossier)
    (logo_path : Option String) (disk : String → Bool) (now : String) :
    Except String (List (List Cmd) × Dossier) := do
  let pdf := ExcelraPDF.mkNew logo_path
  let pdf := pdf.add_page disk
  let pdf := pdf.set_font "Helvetica" "B" 16
  let pdf := pdf.set_text_color DEEP_BLUE_RGB
  let pdf := pdf.cell 0 12 ("Indication Dossier: " ++ indication) 0 1 "C" false
  let pdf := pdf.set_font "Helvetica" "" 11
  let pdf := pdf.set_text_color VIOLET_RGB
  let pdf := pdf.cell 0 6 (target ++ " Inhibitor Expansion Opportunity") 0 1 "C" false
  let pdf := pdf.set_font "Helvetica" "" 9
  let pdf := pdf.cell 0 5 ("Generated: " ++ now) 0 1 "C" false
  let pdf := pdf.lnBy 8
  let y_pos := pdf.y
  let fscore ← getKey "frequency_score" dossier_data.frequency_score
  let pdf := pdf.metric_box "Evidence Score" (toString fscore ++ "/9") 10 y_pos 45
  let vstat ← getKey "validation_status" dossier_data.validation_status
  let pdf := pdf.metric_box "Validation" vstat 60 y_pos 45
  let unmet ← getKey "unmet_need" dossier_data.unmet_need
  let pdf := pdf.metric_box "Unmet Need" unmet 110 y_pos 45
  let msize ← getKey "market_size" dossier_data.market_size
  let pdf := pdf.metric_box "Market Size" (pyReplace msize " by" "\n") 160 y_pos 45
  let pdf := pdf.lnBy 30
  let pdf := pdf.section_title "Biological Rationale"
  let brat ← getKey "biological_rationale" dossier_data.biological_rationale
  let rationale := pyStrip brat
  let rationale := pyReplace (pyReplace rationale "**" "") "•" "-"
  let pdf := pdf.body_text rationale
  let pdf := pdf.add_page disk
  let pdf := pdf.section_title "Evidence Summary"
  let kev ← getKey "key_evidence" dossier_data.key_evidence
  let pdf := kev.foldl (fun p item => drawEvidenceItem item p) pdf
  let ctx ← getKey "competitive_context" dossier_data.competitive_context
  let pdf := drawCompetitiveLandscape ctx pdf
  let pdf := pdf.lnBy 8
  let pdf := pdf.section_title "Key Biomarkers"
  let bios ← getKey "key_biomarkers" dossier_data.key_biomarkers
  let pdf := pdf.body_text (pyJoin ", " bios)
  let pdf := pdf.lnBy 5
  let pdf := pdf.section_title "Recommended Actions"
  let acts ← getKey "recommended_actions" dossier_data.recommended_actions
  let pdf := acts.enum.foldl (fun p ia => drawAction (ia.1 + 1) ia.2 p) pdf
  let pdf := pdf.lnBy 10
  let pdf := pdf.set_fill_color SOFT_LAVENDER_RGB
  let pdf := pdf.rect 10 pdf.y 190 25 "F"
  let pdf := pdf.set_xy 15 (pdf.y + 5)
  let pdf := pdf.set_font "Helvetica" "B" 10
  let pdf := pdf.set_text_color DEEP_BLUE_RGB
  let pdf := pdf.cell 0 5 "Interested in a comprehensive analysis?" 0 1 "L" false
  let pdf := pdf.set_x 15
  let pdf := pdf.set_font "Helvetica" "" 9
  let pdf := pdf.multi_cell 180 5 "Contact Excelra to commission a full indication dossier with primary literature review, KOL insights, and detailed competitive intelligence."
  pure (pdf.output, dossier_data)

/-! ## Observers over the finished document -/

/-- The text payload of a command, if any. -/
def textOf : Cmd → Option String
  | .textCell _ _ t _ _ _ _ => some t
  | .multiCell _ _ t => some t
  | _ => none

/-- All text payloads of a document, in drawing order. -/
def allTexts (doc : List (List Cmd)) : List String := doc.flatten.filterMap textOf

/-- Select the value line of a metric box: `metric_box` draws its value as
`cell(width, 8, value, 0, 0, 'C')` and no other drawing call in
src/export.py produces a centred, borderless, unfilled cell of height 8
(table header cells have border 1 and fill, subsection titles are
left-aligned, every other cell has a different height). -/
def metricSel : Cmd → Option String
  | .textCell _ 8 t 0 _ "C" false => some t
  | _ => none

/-- The metric-box values of a document, in drawing order. -/
def metricValues (doc : List (List Cmd)) : List String := doc.flatten.filterMap metricSel

/-- The first-column cells of the discovery report's indication table: its
rows are the only cells of width 60 (height 7, border 1). -/
def discoveryCol1 (doc : List (List Cmd)) : List String :=
  doc.flatten.filterMap fun c =>
    match c with
    | .textCell 60 7 t _ _ _ _ => some t
    | _ => none

/-- The header band: `header` paints `rect(0, 0, 210, 25, 'F')` and no
other drawing call paints such a rectangle (metric boxes have height 20,
the call-to-action banner sits at `x = 10`). -/
def isHdrBand : Cmd → Bool
  | .rect x y w h s => decide (x = 0 ∧ y = 0 ∧ w = 210 ∧ h = 25 ∧ s = "F")
  | _ => false

/-- The footer band separator: `footer` draws `line(10, y, 200, y)` and the
only other line drawn anywhere (the `section_title` underline) ends at
`x = 80`, not 200. -/
def isFtrBand : Cmd → Bool
  | .lineSeg x1 _ x2 _ => decide (x1 = 10 ∧ x2 = 200)
  | _ => false

/-- The texts drawn strictly between the first occurrence of text `a` and
the following occurrence of text `b`. -/
def textsBetween (doc : List (List Cmd)) (a b : String) : List String :=
  (((allTexts doc).dropWhile (fun s => s != a)).drop 1).takeWhile (fun s => s != b)

/-! ## Evaluation lemmas for the observers

One lemma per command shape that the source emits, so that `simp` can
evaluate the observers on a symbolically unfolded document. -/

@[simp] lemma isHdrBand_setFillColor (r g b : Nat) : isHdrBand (.setFillColor r g b) = false := rfl
@[simp] lemma isHdrBand_setTextColor (r g b : Nat) : isHdrBand (.setTextColor r g b) = false := rfl
@[simp] lemma isHdrBand_setDrawColor (r g b : Nat) : isHdrBand (.setDrawColor r g b) = false := rfl
@[simp] lemma isHdrBand_setFont (f s : String) (n : Nat) : isHdrBand (.setFont f s n) = false := rfl
@[simp] lemma isHdrBand_lineSeg (a b c d : Int) : isHdrBand (.lineSeg a b c d) = false := rfl
@[simp] lemma isHdrBand_image (p : String) (x y w : Int) : isHdrBand (.image p x y w) = false := rfl
@[simp] lemma isHdrBand_textCell (w h : Int) (t : String) (b l : Nat) (a : String) (f : Bool) :
    isHdrBand (.textCell w h t b l a f) = false := rfl
@[simp] lemma isHdrBand_multiCell (w h : Int) (t : String) : isHdrBand (.multiCell w h t) = false := rfl
@[simp] lemma isHdrBand_rect20 (x y w : Int) (s : String) :
    isHdrBand (.rect x y w 20 s) = false := by
  show decide (x = 0 ∧ y = 0 ∧ w = 210 ∧ (20 : Int) = 25 ∧ s = "F") = false
  exact decide_eq_false (fun h => absurd h.2.2.2.1 (by decide))
@[simp] lemma isHdrBand_rectCTA (y : Int) : isHdrBand (.rect 10 y 190 25 "F") = false := by
  show decide ((10 : Int) = 0 ∧ y = 0 ∧ (190 : Int) = 210 ∧ (25 : Int) = 25 ∧ "F" = "F") = false
  exact decide_eq_false (fun h => absurd h.1 (by decide))
@[simp] lemma isHdrBand_rectHdr : isHdrBand (.rect 0 0 210 25 "F") = true := rfl

@[simp] lemma isFtrBand_setFillColor (r g b : Nat) : isFtrBand (.setFillColor r g b) = false := rfl
@[simp] lemma isFtrBand_setTextColor (r g b : Nat) : isFtrBand (.setTextColor r g b) = false := rfl
@[simp] lemma isFtrBand_setDrawColor (r g b : Nat) : isFtrBand (.setDrawColor r g b) = false := rfl
@[simp] lemma isFtrBand_setFont (f s : String) (n : Nat) : isFtrBand (.setFont f s n) = false := rfl
@[simp] lemma isFtrBand_rect (x y w h : Int) (s : String) : isFtrBand (.rect x y w h s) = false := rfl
@[simp] lemma isFtrBand_image (p : String) (x y w : Int) : isFtrBand (.image p x y w) = false := rfl
@[simp] lemma isFtrBand_textCell (w h : Int) (t : String) (b l : Nat) (a : String) (f : Bool) :
    isFtrBand (.textCell w h t b l a f) = false := rfl
@[simp] lemma isFtrBand_multiCell (w h : Int) (t : String) : isFtrBand (.multiCell w h t) = false := rfl
@[simp] lemma isFtrBand_line80 (y1 y2 : Int) : isFtrBand (.lineSeg 10 y1 80 y2) = false := by
  show decide ((10 : Int) = 10 ∧ (80 : Int) = 200) = false
  exact decide_eq_false (fun h => absurd h.2 (by decide))
@[simp] lemma isFtrBand_line200 (y1 y2 : Int) : isFtrBand (.lineSeg 10 y1 200 y2) = true := by
  show decide ((10 : Int) = 10 ∧ (200 : Int) = 200) = true
  exact decide_eq_true ⟨rfl, rfl⟩

@[simp] lemma textOf_setFillColor (r g b : Nat) : textOf (.setFillColor r g b) = none := rfl
@[simp] lemma textOf_setTextColor (r g b : Nat) : textOf (.setTextColor r g b) = none := rfl
@[simp] lemma textOf_setDrawColor (r g b : Nat) : textOf (.setDrawColor r g b) = none := rfl
@[simp] lemma textOf_setFont (f s : String) (n : Nat) : textOf (.setFont f s n) = none := rfl
@[simp] lemma textOf_rect (x y w h : Int) (s : String) : textOf (.rect x y w h s) = none := rfl
@[simp] lemma textOf_lineSeg (a b c d : Int) : textOf (.lineSeg a b c d) = none := rfl
@[simp] lemma textOf_image (p : String) (x y w : Int) : textOf (.image p x y w) = none := rfl
@[simp] lemma textOf_textCell (w h : Int) (t : String) (b l : Nat) (a : String) (f : Bool) :
    textOf (.textCell w h t b l a f) = some t := rfl
@[simp] lemma textOf_multiCell (w h : Int) (t : String) : textOf (.multiCell w h t) = some t := rfl

@[simp] lemma metricSel_setFillColor (r g b : Nat) : metricSel (.setFillColor r g b) = none := rfl
@[simp] lemma metricSel_setTextColor (r g b : Nat) : metricSel (.setTextColor r g b) = none := rfl
@[simp] lemma metricSel_setDrawColor (r g b : Nat) : metricSel (.setDrawColor r g b) = none := rfl
@[simp] lemma metricSel_setFont (f s : String) (n : Nat) : metricSel (.setFont f s n) = none := rfl
@[simp] lemma metricSel_rect (x y w h : Int) (s : String) : metricSel (.rect x y w h s) = none := rfl
@[simp] lemma metricSel_lineSeg (a b c d : Int) : metricSel (.lineSeg a b c d) = none := rfl
@[simp] lemma metricSel_image (p : String) (x y w : Int) : metricSel (.image p x y w) = none := rfl
@[simp] lemma metricSel_multiCell (w h : Int) (t : String) : metricSel (.multiCell w h t) = none := rfl
@[simp] lemma metricSel_value (w : Int) (t : String) : metricSel (.textCell w 8 t 0 0 "C" false) = some t := rfl
@[simp] lemma metricSel_label (w : Int) (t : String) : metricSel (.textCell w 5 t 0 0 "C" false) = none := rfl
@[simp] lemma metricSel_hdrCell (t : String) (a : String) : metricSel (.textCell 0 5 t 0 0 a false) = none := rfl
@[simp] lemma metricSel_title15 (t : String) : metricSel (.textCell 0 15 t 0 1 "C" false) = none := rfl
@[simp] lemma metricSel_title12 (t : String) : metricSel (.textCell 0 12 t 0 1 "C" false) = none := rfl
@[simp] lemma metricSel_title10 (t : String) : metricSel (.textCell 0 10 t 0 1 "L" false) = none := rfl
@[simp] lemma metricSel_cell6 (t : String) : metricSel (.textCell 0 6 t 0 1 "C" false) = none := rfl
@[simp] lemma metricSel_cell5ln1C (t : String) : metricSel (.textCell 0 5 t 0 1 "C" false) = none := rfl
@[simp] lemma metricSel_cell5ln1L (t : String) : metricSel (.textCell 0 5 t 0 1 "L" false) = none := rfl
@[simp] lemma metricSel_subsection (t : String) : metricSel (.textCell 0 8 t 0 1 "L" false) = none := rfl
@[simp] lemma metricSel_tblHdr8 (w : Int) (t : String) : metricSel (.textCell w 8 t 1 0 "C" true) = none := rfl
@[simp] lemma metricSel_tblHdr7 (w : Int) (t : String) : metricSel (.textCell w 7 t 1 0 "C" true) = none := rfl
@[simp] lemma metricSel_row7L (w : Int) (t : String) : metricSel (.textCell w 7 t 1 0 "L" false) = none := rfl
@[simp] lemma metricSel_row7C (w : Int) (t : String) : metricSel (.textCell w 7 t 1 0 "C" false) = none := rfl

/-! ## Generic fold lemmas

The table-drawing loops are `List.foldl` over a per-item drawing function
that only appends commands to the current page; these lemmas transport the
observers across such folds. -/

lemma foldl_pages_eq {α : Type} (f : α → ExcelraPDF → ExcelraPDF)
    (hf : ∀ a p, (f a p).pages = p.pages) :
    ∀ (l : List α) (st : ExcelraPDF), (l.foldl (fun p a => f a p) st).pages = st.pages := by
  intro l
  induction l with
  | nil => intro st; rfl
  | cons a l ih => intro st; rw [List.foldl_cons, ih, hf]

lemma foldl_pageNo_eq {α : Type} (f : α → ExcelraPDF → ExcelraPDF)
    (hf : ∀ a p, (f a p).pageNo = p.pageNo) :
    ∀ (l : List α) (st : ExcelraPDF), (l.foldl (fun p a => f a p) st).pageNo = st.pageNo := by
  intro l
  induction l with
  | nil => intro st; rfl
  | cons a l ih => intro st; rw [List.foldl_cons, ih, hf]

lemma foldl_logo_eq {α : Type} (f : α → ExcelraPDF → ExcelraPDF)
    (hf : ∀ a p, (f a p).logo_path = p.logo_path) :
    ∀ (l : List α) (st : ExcelraPDF), (l.foldl (fun p a => f a p) st).logo_path = st.logo_path := by
  intro l
  induction l with
  | nil => intro st; rfl
  | cons a l ih => intro st; rw [List.foldl_cons, ih, hf]

lemma foldl_filter_eq {α : Type} (q : Cmd → Bool) (f : α → ExcelraPDF → ExcelraPDF)
    (hf : ∀ a p, (f a p).cur.filter q = p.cur.filter q) :
    ∀ (l : List α) (st : ExcelraPDF),
      (l.foldl (fun p a => f a p) st).cur.filter q = st.cur.filter q := by
  intro l
  induction l with
  | nil => intro st; rfl
  | cons a l ih => intro st; rw [List.foldl_cons, ih, hf]

lemma foldl_filterMap_eq {α β : Type} (g : Cmd → Option β) (f : α → ExcelraPDF → ExcelraPDF)
    (hf : ∀ a p, (f a p).cur.filterMap g = p.cur.filterMap g) :
    ∀ (l : List α) (st : ExcelraPDF),
      (l.foldl (fun p a => f a p) st).cur.filterMap g = st.cur.filterMap g := by
  intro l
  induction l with
  | nil => intro st; rfl
  | cons a l ih => intro st; rw [List.foldl_cons, ih, hf]

lemma foldl_cur_append {α : Type} (f : α → ExcelraPDF → ExcelraPDF)
    (hf : ∀ a p, ∃ cs, (f a p).cur = p.cur ++ cs) :
    ∀ (l : List α) (st : ExcelraPDF),
      ∃ cs, (l.foldl (fun p a => f a p) st).cur = st.cur ++ cs := by
  intro l
  induction l with
  | nil => intro st; exact ⟨[], by simp⟩
  | cons a l ih =>
    intro st
    obtain ⟨cs1, h1⟩ := hf a st
    obtain ⟨cs2, h2⟩ := ih (f a st)
    exact ⟨cs1 ++ cs2, by rw [List.foldl_cons, h2, h1, List.append_assoc]⟩

/-! ## Transport of the observers across the four drawing loops -/

@[simp] lemma foldIndRow_pages (l : List IndicationRow) (st : ExcelraPDF) :
    (l.foldl (fun p row => drawIndicationRow row p) st).pages = st.pages :=
  foldl_pages_eq _ (fun a p => by
    simp [drawIndicationRow, ExcelraPDF.cell, ExcelraPDF.emit, ExcelraPDF.set_fill_color,
      ExcelraPDF.lnAuto]) l st

@[simp] lemma foldIndRow_pageNo (l : List IndicationRow) (st : ExcelraPDF) :
    (l.foldl (fun p row => drawIndicationRow row p) st).pageNo = st.pageNo :=
  foldl_pageNo_eq _ (fun a p => by
    simp [drawIndicationRow, ExcelraPDF.cell, ExcelraPDF.emit, ExcelraPDF.set_fill_color,
      ExcelraPDF.lnAuto]) l st

@[simp] lemma foldIndRow_logo (l : List IndicationRow) (st : ExcelraPDF) :
    (l.foldl (fun p row => drawIndicationRow row p) st).logo_path = st.logo_path :=
  foldl_logo_eq _ (fun a p => by
    simp [drawIndicationRow, ExcelraPDF.cell, ExcelraPDF.emit, ExcelraPDF.set_fill_color,
      ExcelraPDF.lnAuto]) l st

@[simp] lemma foldIndRow_hdr (l : List IndicationRow) (st : ExcelraPDF) :
    (l.foldl (fun p row => drawIndicationRow row p) st).cur.filter isHdrBand
      = st.cur.filter isHdrBand :=
  foldl_filter_eq _ _ (fun a p => by
    simp [drawIndicationRow, ExcelraPDF.cell, ExcelraPDF.emit, ExcelraPDF.set_fill_color,
      ExcelraPDF.lnAuto, List.filter_append]) l st

@[simp] lemma foldIndRow_ftr (l : List IndicationRow) (st : ExcelraPDF) :
    (l.foldl (fun p row => drawIndicationRow row p) st).cur.filter isFtrBand
      = st.cur.filter isFtrBand :=
  foldl_filter_eq _ _ (fun a p => by
    simp [drawIndicationRow, ExcelraPDF.cell, ExcelraPDF.emit, ExcelraPDF.set_fill_color,
      ExcelraPDF.lnAuto, List.filter_append]) l st

@[simp] lemma foldIndRow_metric (l : List IndicationRow) (st : ExcelraPDF) :
    (l.foldl (fun p row => drawIndicationRow row p) st).cur.filterMap metricSel
      = st.cur.filterMap metricSel :=
  foldl_filterMap_eq _ _ (fun a p => by
    simp [drawIndicationRow, ExcelraPDF.cell, ExcelraPDF.emit, ExcelraPDF.set_fill_color,
      ExcelraPDF.lnAuto, List.filterMap_append]) l st

@[simp] lemma foldEvid_pages (l : List EvidenceItem) (st : ExcelraPDF) :
    (l.foldl (fun p item => drawEvidenceItem item p) st).pages = st.pages :=
  foldl_pages_eq _ (fun a p => by
    simp [drawEvidenceItem, ExcelraPDF.subsection_title, ExcelraPDF.body_text,
      ExcelraPDF.cell, ExcelraPDF.emit, ExcelraPDF.multi_cell, ExcelraPDF.set_font,
      ExcelraPDF.set_text_color, ExcelraPDF.lnBy]) l st

@[simp] lemma foldEvid_pageNo (l : List EvidenceItem) (st : ExcelraPDF) :
    (l.foldl (fun p item => drawEvidenceItem item p) st).pageNo = st.pageNo :=
  foldl_pageNo_eq _ (fun a p => by
    simp [drawEvidenceItem, ExcelraPDF.subsection_title, ExcelraPDF.body_text,
      ExcelraPDF.cell, ExcelraPDF.emit, ExcelraPDF.multi_cell, ExcelraPDF.set_font,
      ExcelraPDF.set_text_color, ExcelraPDF.lnBy]) l st

@[simp] lemma foldEvid_logo (l : List EvidenceItem) (st : ExcelraPDF) :
    (l.foldl (fun p item => drawEvidenceItem item p) st).logo_path = st.logo_path :=
  foldl_logo_eq _ (fun a p => by
    simp [drawEvidenceItem, ExcelraPDF.subsection_title, ExcelraPDF.body_text,
      ExcelraPDF.cell, ExcelraPDF.emit, ExcelraPDF.multi_cell, ExcelraPDF.set_font,
      ExcelraPDF.set_text_color, ExcelraPDF.lnBy]) l st

@[simp] lemma foldEvid_hdr (l : List EvidenceItem) (st : ExcelraPDF) :
    (l.foldl (fun p item => drawEvidenceItem item p) st).cur.filter isHdrBand
      = st.cur.filter isHdrBand :=
  foldl_filter_eq _ _ (fun a p => by
    simp [drawEvidenceItem, ExcelraPDF.subsection_title, ExcelraPDF.body_text,
      ExcelraPDF.cell, ExcelraPDF.emit, ExcelraPDF.multi_cell, ExcelraPDF.set_font,
      ExcelraPDF.set_text_color, ExcelraPDF.lnBy, List.filter_append]) l st

@[simp] lemma foldEvid_ftr (l : List EvidenceItem) (st : ExcelraPDF) :
    (l.foldl (fun p item => drawEvidenceItem item p) st).cur.filter isFtrBand
      = st.cur.filter isFtrBand :=
  foldl_filter_eq _ _ (fun a p => by
    simp [drawEvidenceItem, ExcelraPDF.subsection_title, ExcelraPDF.body_text,
      ExcelraPDF.cell, ExcelraPDF.emit, ExcelraPDF.multi_cell, ExcelraPDF.set_font,
      ExcelraPDF.set_text_color, ExcelraPDF.lnBy, List.filter_append]) l st

@[simp] lemma foldEvid_metric (l : List EvidenceItem) (st : ExcelraPDF) :
    (l.foldl (fun p item => drawEvidenceItem item p) st).cur.filterMap metricSel
      = st.cur.filterMap metricSel :=
  foldl_filterMap_eq _ _ (fun a p => by
    simp [drawEvidenceItem, ExcelraPDF.subsection_title, ExcelraPDF.body_text,
      ExcelraPDF.cell, ExcelraPDF.emit, ExcelraPDF.multi_cell, ExcelraPDF.set_font,
      ExcelraPDF.set_text_color, ExcelraPDF.lnBy, List.filterMap_append]) l st

@[simp] lemma foldComp_pages (l : List Competitor) (st : ExcelraPDF) :
    (l.foldl (fun p item => drawCompetitorRow item p) st).pages = st.pages :=
  foldl_pages_eq _ (fun a p => by
    simp [drawCompetitorRow, ExcelraPDF.cell, ExcelraPDF.emit, ExcelraPDF.lnAuto]) l st

@[simp] lemma foldComp_pageNo (l : List Competitor) (st : ExcelraPDF) :
    (l.foldl (fun p item => drawCompetitorRow item p) st).pageNo = st.pageNo :=
  foldl_pageNo_eq _ (fun a p => by
    simp [drawCompetitorRow, ExcelraPDF.cell, ExcelraPDF.emit, ExcelraPDF.lnAuto]) l st

@[simp] lemma foldComp_logo (l : List Competitor) (st : ExcelraPDF) :
    (l.foldl (fun p item => drawCompetitorRow item p) st).logo_path = st.logo_path :=
  foldl_logo_eq _ (fun a p => by
    simp [drawCompetitorRow, ExcelraPDF.cell, ExcelraPDF.emit, ExcelraPDF.lnAuto]) l st

@[simp] lemma foldComp_hdr (l : List Competitor) (st : ExcelraPDF) :
    (l.foldl (fun p item => drawCompetitorRow item p) st).cur.filter isHdrBand
      = st.cur.filter isHdrBand :=
  foldl_filter_eq _ _ (fun a p => by
    simp [drawCompetitorRow, ExcelraPDF.cell, ExcelraPDF.emit, ExcelraPDF.lnAuto,
      List.filter_append]) l st

@[simp] lemma foldComp_ftr (l : List Competitor) (st : ExcelraPDF) :
    (l.foldl (fun p item => drawCompetitorRow item p) st).cur.filter isFtrBand
      = st.cur.filter isFtrBand :=
  foldl_filter_eq _ _ (fun a p => by
    simp [drawCompetitorRow, ExcelraPDF.cell, ExcelraPDF.emit, ExcelraPDF.lnAuto,
      List.filter_append]) l st

@[simp] lemma foldComp_metric (l : List Competitor) (st : ExcelraPDF) :
    (l.foldl (fun p item => drawCompetitorRow item p) st).cur.filterMap metricSel
      = st.cur.filterMap metricSel :=
  foldl_filterMap_eq _ _ (fun a p => by
    simp [drawCompetitorRow, ExcelraPDF.cell, ExcelraPDF.emit, ExcelraPDF.lnAuto,
      List.filterMap_append]) l st

@[simp] lemma foldAct_pages (l : List (Nat × String)) (st : ExcelraPDF) :
    (l.foldl (fun p ia => drawAction (ia.1 + 1) ia.2 p) st).pages = st.pages :=
  foldl_pages_eq _ (fun a p => by
    simp [drawAction, ExcelraPDF.body_text, ExcelraPDF.emit, ExcelraPDF.multi_cell,
      ExcelraPDF.set_font, ExcelraPDF.set_text_color, ExcelraPDF.lnBy]) l st

@[simp] lemma foldAct_pageNo (l : List (Nat × String)) (st : ExcelraPDF) :
    (l.foldl (fun p ia => drawAction (ia.1 + 1) ia.2 p) st).pageNo = st.pageNo :=
  foldl_pageNo_eq _ (fun a p => by
    simp [drawAction, ExcelraPDF.body_text, ExcelraPDF.emit, ExcelraPDF.multi_cell,
      ExcelraPDF.set_font, ExcelraPDF.set_text_color, ExcelraPDF.lnBy]) l st

@[simp] lemma foldAct_logo (l : List (Nat × String)) (st : ExcelraPDF) :
    (l.foldl (fun p ia => drawAction (ia.1 + 1) ia.2 p) st).logo_path = st.logo_path :=
  foldl_logo_eq _ (fun a p => by
    simp [drawAction, ExcelraPDF.body_text, ExcelraPDF.emit, ExcelraPDF.multi_cell,
      ExcelraPDF.set_font, ExcelraPDF.set_text_color, ExcelraPDF.lnBy]) l st

@[simp] lemma foldAct_hdr (l : List (Nat × String)) (st : ExcelraPDF) :
    (l.foldl (fun p ia => drawAction (ia.1 + 1) ia.2 p) st).cur.filter isHdrBand
      = st.cur.filter isHdrBand :=
  foldl_filter_eq _ _ (fun a p => by
    simp [drawAction, ExcelraPDF.body_text, ExcelraPDF.emit, ExcelraPDF.multi_cell,
      ExcelraPDF.set_font, ExcelraPDF.set_text_color, ExcelraPDF.lnBy, List.filter_append]) l st

@[simp] lemma foldAct_ftr (l : List (Nat × String)) (st : ExcelraPDF) :
    (l.foldl (fun p ia => drawAction (ia.1 + 1) ia.2 p) st).cur.filter isFtrBand
      = st.cur.filter isFtrBand :=
  foldl_filter_eq _ _ (fun a p => by
    simp [drawAction, ExcelraPDF.body_text, ExcelraPDF.emit, ExcelraPDF.multi_cell,
      ExcelraPDF.set_font, ExcelraPDF.set_text_color, ExcelraPDF.lnBy, List.filter_append]) l st

@[simp] lemma foldAct_metric (l : List (Nat × String)) (st : ExcelraPDF) :
    (l.foldl (fun p ia => drawAction (ia.1 + 1) ia.2 p) st).cur.filterMap metricSel
      = st.cur.filterMap metricSel :=
  foldl_filterMap_eq _ _ (fun a p => by
    simp [drawAction, ExcelraPDF.body_text, ExcelraPDF.emit, ExcelraPDF.multi_cell,
      ExcelraPDF.set_font, ExcelraPDF.set_text_color, ExcelraPDF.lnBy,
      List.filterMap_append]) l st

/-! ## Projection lemmas for the drawing primitives

These let proofs compute the document contents without ever materializing
intermediate record updates. -/

@[simp] lemma emit_cur (c : Cmd) (p : ExcelraPDF) : (p.emit c).cur = p.cur ++ [c] := rfl
@[simp] lemma emit_pages (c : Cmd) (p : ExcelraPDF) : (p.emit c).pages = p.pages := rfl
@[simp] lemma emit_pageNo (c : Cmd) (p : ExcelraPDF) : (p.emit c).pageNo = p.pageNo := rfl
@[simp] lemma emit_logo (c : Cmd) (p : ExcelraPDF) : (p.emit c).logo_path = p.logo_path := rfl
@[simp] lemma emit_y (c : Cmd) (p : ExcelraPDF) : (p.emit c).y = p.y := rfl
@[simp] lemma emit_lasth (c : Cmd) (p : ExcelraPDF) : (p.emit c).lasth = p.lasth := rfl

@[simp] lemma cell_cur (w h : Int) (t : String) (b l : Nat) (a : String) (f : Bool) (p : ExcelraPDF) :
    (p.cell w h t b l a f).cur = p.cur ++ [.textCell w h t b l a f] := by
  unfold ExcelraPDF.cell; split <;> rfl
@[simp] lemma cell_pages (w h : Int) (t : String) (b l : Nat) (a : String) (f : Bool) (p : ExcelraPDF) :
    (p.cell w h t b l a f).pages = p.pages := by
  unfold ExcelraPDF.cell; split <;> rfl
@[simp] lemma cell_pageNo (w h : Int) (t : String) (b l : Nat) (a : String) (f : Bool) (p : ExcelraPDF) :
    (p.cell w h t b l a f).pageNo = p.pageNo := by
  unfold ExcelraPDF.cell; split <;> rfl
@[simp] lemma cell_logo (w h : Int) (t : String) (b l : Nat) (a : String) (f : Bool) (p : ExcelraPDF) :
    (p.cell w h t b l a f).logo_path = p.logo_path := by
  unfold ExcelraPDF.cell; split <;> rfl
@[simp] lemma cell_y (w h : Int) (t : String) (b l : Nat) (a : String) (f : Bool) (p : ExcelraPDF) :
    (p.cell w h t b l a f).y = if l = 1 then p.y + h else p.y := by
  unfold ExcelraPDF.cell; split <;> simp_all
@[simp] lemma cell_lasth (w h : Int) (t : String) (b l : Nat) (a : String) (f : Bool) (p : ExcelraPDF) :
    (p.cell w h t b l a f).lasth = h := by
  unfold ExcelraPDF.cell; split <;> rfl

@[simp] lemma multi_cell_cur (w h : Int) (t : String) (p : ExcelraPDF) :
    (p.multi_cell w h t).cur = p.cur ++ [.multiCell w h t] := rfl
@[simp] lemma multi_cell_pages (w h : Int) (t : String) (p : ExcelraPDF) :
    (p.multi_cell w h t).pages = p.pages := rfl
@[simp] lemma multi_cell_pageNo (w h : Int) (t : String) (p : ExcelraPDF) :
    (p.multi_cell w h t).pageNo = p.pageNo := rfl
@[simp] lemma multi_cell_logo (w h : Int) (t : String) (p : ExcelraPDF) :
    (p.multi_cell w h t).logo_path = p.logo_path := rfl
@[simp] lemma multi_cell_y (w h : Int) (t : String) (p : ExcelraPDF) :
    (p.multi_cell w h t).y = p.y + h * (pyLines t).length := rfl
@[simp] lemma multi_cell_lasth (w h : Int) (t : String) (p : ExcelraPDF) :
    (p.multi_cell w h t).lasth = h := rfl

@[simp] lemma lnBy_cur (h : Int) (p : ExcelraPDF) : (p.lnBy h).cur = p.cur := rfl
@[simp] lemma lnBy_pages (h : Int) (p : ExcelraPDF) : (p.lnBy h).pages = p.pages := rfl
@[simp] lemma lnBy_pageNo (h : Int) (p : ExcelraPDF) : (p.lnBy h).pageNo = p.pageNo := rfl
@[simp] lemma lnBy_logo (h : Int) (p : ExcelraPDF) : (p.lnBy h).logo_path = p.logo_path := rfl
@[simp] lemma lnBy_y (h : Int) (p : ExcelraPDF) : (p.lnBy h).y = p.y + h := rfl
@[simp] lemma lnBy_lasth (h : Int) (p : ExcelraPDF) : (p.lnBy h).lasth = p.lasth := rfl

@[simp] lemma lnAuto_cur (p : ExcelraPDF) : p.lnAuto.cur = p.cur := rfl
@[simp] lemma lnAuto_pages (p : ExcelraPDF) : p.lnAuto.pages = p.pages := rfl
@[simp] lemma lnAuto_pageNo (p : ExcelraPDF) : p.lnAuto.pageNo = p.pageNo := rfl
@[simp] lemma lnAuto_logo (p : ExcelraPDF) : p.lnAuto.logo_path = p.logo_path := rfl
@[simp] lemma lnAuto_y (p : ExcelraPDF) : p.lnAuto.y = p.y + p.lasth := rfl
@[simp] lemma lnAuto_lasth (p : ExcelraPDF) : p.lnAuto.lasth = p.lasth := rfl

@[simp] lemma set_y_cur (v : Int) (p : ExcelraPDF) : (p.set_y v).cur = p.cur := rfl
@[simp] lemma set_y_pages (v : Int) (p : ExcelraPDF) : (p.set_y v).pages = p.pages := rfl
@[simp] lemma set_y_pageNo (v : Int) (p : ExcelraPDF) : (p.set_y v).pageNo = p.pageNo := rfl
@[simp] lemma set_y_logo (v : Int) (p : ExcelraPDF) : (p.set_y v).logo_path = p.logo_path := rfl
@[simp] lemma set_y_y (v : Int) (p : ExcelraPDF) :
    (p.set_y v).y = if v < 0 then PAGE_H + v else v := rfl
@[simp] lemma set_y_lasth (v : Int) (p : ExcelraPDF) : (p.set_y v).lasth = p.lasth := rfl

@[simp] lemma set_xy_cur (x v : Int) (p : ExcelraPDF) : (p.set_xy x v).cur = p.cur := rfl
@[simp] lemma set_xy_pages (x v : Int) (p : ExcelraPDF) : (p.set_xy x v).pages = p.pages := rfl
@[simp] lemma set_xy_pageNo (x v : Int) (p : ExcelraPDF) : (p.set_xy x v).pageNo = p.pageNo := rfl
@[simp] lemma set_xy_logo (x v : Int) (p : ExcelraPDF) : (p.set_xy x v).logo_path = p.logo_path := rfl
@[simp] lemma set_xy_y (x v : Int) (p : ExcelraPDF) :
    (p.set_xy x v).y = if v < 0 then PAGE_H + v else v := rfl
@[simp] lemma set_xy_lasth (x v : Int) (p : ExcelraPDF) : (p.set_xy x v).lasth = p.lasth := rfl

@[simp] lemma mkNew_cur (l : Option String) : (ExcelraPDF.mkNew l).cur = [] := rfl
@[simp] lemma mkNew_pages (l : Option String) : (ExcelraPDF.mkNew l).pages = [] := rfl
@[simp] lemma mkNew_pageNo (l : Option String) : (ExcelraPDF.mkNew l).pageNo = 0 := rfl
@[simp] lemma mkNew_logo (l : Option String) : (ExcelraPDF.mkNew l).logo_path = l := rfl
@[simp] lemma mkNew_y (l : Option String) : (ExcelraPDF.mkNew l).y = 0 := rfl
@[simp] lemma mkNew_lasth (l : Option String) : (ExcelraPDF.mkNew l).lasth = 0 := rfl

/-! ## Command-list characterizations of the page lifecycle -/

/-- The commands `ExcelraPDF.header` stamps at the top of every page. -/
def headerCmds (lp : Option String) (disk : String → Bool) : List Cmd :=
  [.setFillColor 179 224 242, .rect 0 0 210 25 "F"] ++
  (match lp with
   | some path => if disk path then [.image path 10 5 30] else []
   | none => []) ++
  [.setFont "Helvetica" "B" 12, .setTextColor 10 30 74,
   .textCell 0 5 "Indication Expansion Analysis" 0 0 "L" false,
   .setFont "Helvetica" "" 9, .setTextColor 162 77 190,
   .textCell 0 5 "Powered by Excelra GRIP Platform" 0 0 "L" false]

/-- The commands `ExcelraPDF.footer` stamps when page `n` is finalized. -/
def footerCmds (n : Nat) : List Cmd :=
  [.setDrawColor 162 77 190, .lineSeg 10 277 200 277,
   .setFont "Helvetica" "" 8, .setTextColor 10 30 74,
   .textCell 0 5 "www.excelra.com | Where data means more" 0 0 "C" false,
   .textCell 0 5 ("Page " ++ toString n) 0 0 "R" false]

@[simp] lemma header_cur (disk : String → Bool) (p : ExcelraPDF) :
    (p.header disk).cur = p.cur ++ headerCmds p.logo_path disk := by
  cases hl : p.logo_path with
  | none => simp [ExcelraPDF.header, headerCmds, ExcelraPDF.set_fill_color,
      ExcelraPDF.set_text_color, ExcelraPDF.set_font, ExcelraPDF.rect,
      ExcelraPDF.draw_image, DEEP_BLUE_RGB, VIOLET_RGB, LIGHT_BLUE_RGB, hl]
  | some path =>
    by_cases hd : disk path <;>
      simp [ExcelraPDF.header, headerCmds, ExcelraPDF.set_fill_color,
        ExcelraPDF.set_text_color, ExcelraPDF.set_font, ExcelraPDF.rect,
        ExcelraPDF.draw_image, DEEP_BLUE_RGB, VIOLET_RGB, LIGHT_BLUE_RGB, hl, hd]

@[simp] lemma header_pages (disk : String → Bool) (p : ExcelraPDF) :
    (p.header disk).pages = p.pages := by
  cases hl : p.logo_path with
  | none => simp [ExcelraPDF.header, ExcelraPDF.set_fill_color,
      ExcelraPDF.set_text_color, ExcelraPDF.set_font, ExcelraPDF.rect,
      ExcelraPDF.draw_image, hl]
  | some path =>
    by_cases hd : disk path <;>
      simp [ExcelraPDF.header, ExcelraPDF.set_fill_color, ExcelraPDF.set_text_color,
        ExcelraPDF.set_font, ExcelraPDF.rect, ExcelraPDF.draw_image, hl, hd]

@[simp] lemma header_pageNo (disk : String → Bool) (p : ExcelraPDF) :
    (p.header disk).pageNo = p.pageNo := by
  cases hl : p.logo_path with
  | none => simp [ExcelraPDF.header, ExcelraPDF.set_fill_color,
      ExcelraPDF.set_text_color, ExcelraPDF.set_font, ExcelraPDF.rect,
      ExcelraPDF.draw_image, hl]
  | some path =>
    by_cases hd : disk path <;>
      simp [ExcelraPDF.header, ExcelraPDF.set_fill_color, ExcelraPDF.set_text_color,
        ExcelraPDF.set_font, ExcelraPDF.rect, ExcelraPDF.draw_image, hl, hd]

@[simp] lemma header_logo (disk : String → Bool) (p : ExcelraPDF) :
    (p.header disk).logo_path = p.logo_path := by
  cases hl : p.logo_path with
  | none => simp [ExcelraPDF.header, ExcelraPDF.set_fill_color,
      ExcelraPDF.set_text_color, ExcelraPDF.set_font, ExcelraPDF.rect,
      ExcelraPDF.draw_image, hl]
  | some path =>
    by_cases hd : disk path <;>
      simp [ExcelraPDF.header, ExcelraPDF.set_fill_color, ExcelraPDF.set_text_color,
        ExcelraPDF.set_font, ExcelraPDF.rect, ExcelraPDF.draw_image, hl, hd]

@[simp] lemma header_y (disk : String → Bool) (p : ExcelraPDF) :
    (p.header disk).y = 39 := by
  cases hl : p.logo_path with
  | none => simp [ExcelraPDF.header, ExcelraPDF.set_fill_color,
      ExcelraPDF.set_text_color, ExcelraPDF.set_font, ExcelraPDF.rect,
      ExcelraPDF.draw_image, hl]
  | some path =>
    by_cases hd : disk path <;>
      simp [ExcelraPDF.header, ExcelraPDF.set_fill_color, ExcelraPDF.set_text_color,
        ExcelraPDF.set_font, ExcelraPDF.rect, ExcelraPDF.draw_image, hl, hd]

@[simp] lemma header_lasth (disk : String → Bool) (p : ExcelraPDF) :
    (p.header disk).lasth = 5 := by
  cases hl : p.logo_path with
  | none => simp [ExcelraPDF.header, ExcelraPDF.set_fill_color,
      ExcelraPDF.set_text_color, ExcelraPDF.set_font, ExcelraPDF.rect,
      ExcelraPDF.draw_image, hl]
  | some path =>
    by_cases hd : disk path <;>
      simp [ExcelraPDF.header, ExcelraPDF.set_fill_color, ExcelraPDF.set_text_color,
        ExcelraPDF.set_font, ExcelraPDF.rect, ExcelraPDF.draw_image, hl, hd]

@[simp] lemma footer_cur (p : ExcelraPDF) :
    p.footer.cur = p.cur ++ footerCmds p.pageNo := by
  simp [ExcelraPDF.footer, footerCmds, ExcelraPDF.set_draw_color, ExcelraPDF.set_font,
    ExcelraPDF.set_text_color, ExcelraPDF.draw_line, DEEP_BLUE_RGB, VIOLET_RGB, PAGE_H]

@[simp] lemma footer_pages (p : ExcelraPDF) : p.footer.pages = p.pages := by
  simp [ExcelraPDF.footer, ExcelraPDF.set_draw_color, ExcelraPDF.set_font,
    ExcelraPDF.set_text_color, ExcelraPDF.draw_line]

@[simp] lemma footer_pageNo (p : ExcelraPDF) : p.footer.pageNo = p.pageNo := by
  simp [ExcelraPDF.footer, ExcelraPDF.set_draw_color, ExcelraPDF.set_font,
    ExcelraPDF.set_text_color, ExcelraPDF.draw_line]

@[simp] lemma footer_logo (p : ExcelraPDF) : p.footer.logo_path = p.logo_path := by
  simp [ExcelraPDF.footer, ExcelraPDF.set_draw_color, ExcelraPDF.set_font,
    ExcelraPDF.set_text_color, ExcelraPDF.draw_line]

@[simp] lemma add_page_cur (disk : String → Bool) (p : ExcelraPDF) :
    (p.add_page disk).cur
      = (if p.pageNo = 0 then p.cur else []) ++ headerCmds p.logo_path disk := by
  unfold ExcelraPDF.add_page
  by_cases h0 : p.pageNo = 0 <;> simp [h0]

@[simp] lemma add_page_pages (disk : String → Bool) (p : ExcelraPDF) :
    (p.add_page disk).pages
      = if p.pageNo = 0 then p.pages else p.pages ++ [p.cur ++ footerCmds p.pageNo] := by
  unfold ExcelraPDF.add_page
  by_cases h0 : p.pageNo = 0 <;> simp [h0]

@[simp] lemma add_page_pageNo (disk : String → Bool) (p : ExcelraPDF) :
    (p.add_page disk).pageNo = p.pageNo + 1 := by
  unfold ExcelraPDF.add_page
  by_cases h0 : p.pageNo = 0 <;> simp [h0]

@[simp] lemma add_page_logo (disk : String → Bool) (p : ExcelraPDF) :
    (p.add_page disk).logo_path = p.logo_path := by
  unfold ExcelraPDF.add_page
  by_cases h0 : p.pageNo = 0 <;> simp [h0]

@[simp] lemma add_page_y (disk : String → Bool) (p : ExcelraPDF) :
    (p.add_page disk).y = 39 := by
  unfold ExcelraPDF.add_page
  by_cases h0 : p.pageNo = 0 <;> simp [h0]

@[simp] lemma add_page_lasth (disk : String → Bool) (p : ExcelraPDF) :
    (p.add_page disk).lasth = 5 := by
  unfold ExcelraPDF.add_page
  by_cases h0 : p.pageNo = 0 <;> simp [h0]

@[simp] lemma output_eq (p : ExcelraPDF) :
    p.output = p.pages ++ [p.cur ++ footerCmds p.pageNo] := by
  simp [ExcelraPDF.output]

/-! ## Filters of the lifecycle command blocks -/

@[simp] lemma headerCmds_filter_hdr (lp : Option String) (disk : String → Bool) :
    (headerCmds lp disk).filter isHdrBand = [.rect 0 0 210 25 "F"] := by
  cases lp with
  | none => simp [headerCmds]
  | some path => by_cases hd : disk path <;> simp [headerCmds, hd]

@[simp] lemma headerCmds_filter_ftr (lp : Option String) (disk : String → Bool) :
    (headerCmds lp disk).filter isFtrBand = [] := by
  cases lp with
  | none => simp [headerCmds]
  | some path => by_cases hd : disk path <;> simp [headerCmds, hd]

@[simp] lemma headerCmds_metric (lp : Option String) (disk : String → Bool) :
    (headerCmds lp disk).filterMap metricSel = [] := by
  cases lp with
  | none => simp [headerCmds]
  | some path => by_cases hd : disk path <;> simp [headerCmds, hd]

@[simp] lemma headerCmds_texts (lp : Option String) (disk : String → Bool) :
    (headerCmds lp disk).filterMap textOf
      = ["Indication Expansion Analysis", "Powered by Excelra GRIP Platform"] := by
  cases lp with
  | none => simp [headerCmds]
  | some path => by_cases hd : disk path <;> simp [headerCmds, hd]

@[simp] lemma footerCmds_filter_hdr (n : Nat) : (footerCmds n).filter isHdrBand = [] := by
  simp [footerCmds]

@[simp] lemma footerCmds_filter_ftr (n : Nat) :
    (footerCmds n).filter isFtrBand = [.lineSeg 10 277 200 277] := by
  simp [footerCmds]

@[simp] lemma footerCmds_metric (n : Nat) : (footerCmds n).filterMap metricSel = [] := by
  simp [footerCmds]

@[simp] lemma footerCmds_texts (n : Nat) :
    (footerCmds n).filterMap textOf
      = ["www.excelra.com | Where data means more", "Page " ++ toString n] := by
  simp [footerCmds]

/-! ## State-independent command lists of the loop bodies -/

/-- The commands one indication table row draws (lines 187-203). -/
def indRowCmds (row : IndicationRow) : List Cmd :=
  [.setFillColor 227 217 242,
   .textCell 60 7 (pyTruncate 35 row.indication_name) 1 0 "L" false,
   .textCell 45 7 (pyTruncate 25 row.therapeutic_area) 1 0 "L" false,
   .textCell 25 7 (toString row.frequency_score ++ "/9") 1 0 "C" false,
   .textCell 30 7 row.relevancy 1 0 "C" false,
   .textCell 30 7 (toString (evidenceCount row) ++ "/9") 1 0 "C" false]

/-- The commands one evidence item draws (lines 294-297). -/
def evidItemCmds (item : EvidenceItem) : List Cmd :=
  [.setFont "Helvetica" "B" 11, .setTextColor 162 77 190,
   .textCell 0 8 item.source 0 1 "L" false,
   .setFont "Helvetica" "" 10, .setTextColor 10 30 74,
   .multiCell 0 5 (item.finding ++ " (Confidence: " ++ item.confidence ++ ")")]

/-- The commands one competitor row draws (lines 318-323). -/
def compRowCmds (item : Competitor) : List Cmd :=
  [.textCell 50 7 item.company 1 0 "L" false,
   .textCell 50 7 item.drug 1 0 "L" false,
   .textCell 40 7 item.phase 1 0 "C" false,
   .textCell 50 7 item.status 1 0 "L" false]

/-- The commands one recommended action draws (lines 336-338). -/
def actionCmds (i : Nat) (action : String) : List Cmd :=
  [.setFont "Helvetica" "" 10, .setTextColor 10 30 74,
   .multiCell 0 5 (toString i ++ ". " ++ action)]

@[simp] lemma drawIndicationRow_cur (row : IndicationRow) (p : ExcelraPDF) :
    (drawIndicationRow row p).cur = p.cur ++ indRowCmds row := by
  simp [drawIndicationRow, indRowCmds, ExcelraPDF.set_fill_color, SOFT_LAVENDER_RGB]

@[simp] lemma drawEvidenceItem_cur (item : EvidenceItem) (p : ExcelraPDF) :
    (drawEvidenceItem item p).cur = p.cur ++ evidItemCmds item := by
  simp [drawEvidenceItem, evidItemCmds, ExcelraPDF.subsection_title, ExcelraPDF.body_text,
    ExcelraPDF.set_font, ExcelraPDF.set_text_color, VIOLET_RGB, DEEP_BLUE_RGB]

@[simp] lemma drawCompetitorRow_cur (item : Competitor) (p : ExcelraPDF) :
    (drawCompetitorRow item p).cur = p.cur ++ compRowCmds item := by
  simp [drawCompetitorRow, compRowCmds]

@[simp] lemma drawAction_cur (i : Nat) (a : String) (p : ExcelraPDF) :
    (drawAction i a p).cur = p.cur ++ actionCmds i a := by
  simp [drawAction, actionCmds, ExcelraPDF.body_text, ExcelraPDF.set_font,
    ExcelraPDF.set_text_color, DEEP_BLUE_RGB]

@[simp] lemma foldIndRow_cur (l : List IndicationRow) (st : ExcelraPDF) :
    (l.foldl (fun p row => drawIndicationRow row p) st).cur
      = st.cur ++ l.flatMap indRowCmds := by
  induction l generalizing st with
  | nil => simp
  | cons r rs ih => simp [ih, List.append_assoc]

@[simp] lemma foldEvid_cur (l : List EvidenceItem) (st : ExcelraPDF) :
    (l.foldl (fun p item => drawEvidenceItem item p) st).cur
      = st.cur ++ l.flatMap evidItemCmds := by
  induction l generalizing st with
  | nil => simp
  | cons r rs ih => simp [ih, List.append_assoc]

@[simp] lemma foldComp_cur (l : List Competitor) (st : ExcelraPDF) :
    (l.foldl (fun p item => drawCompetitorRow item p) st).cur
      = st.cur ++ l.flatMap compRowCmds := by
  induction l generalizing st with
  | nil => simp
  | cons r rs ih => simp [ih, List.append_assoc]

@[simp] lemma foldAct_cur (l : List (Nat × String)) (st : ExcelraPDF) :
    (l.foldl (fun p ia => drawAction (ia.1 + 1) ia.2 p) st).cur
      = st.cur ++ l.flatMap (fun ia => actionCmds (ia.1 + 1) ia.2) := by
  induction l generalizing st with
  | nil => simp
  | cons r rs ih => simp [ih, List.append_assoc]

/-! ## Filters over the loop command lists -/

@[simp] lemma indRow_flat_hdr (l : List IndicationRow) :
    (l.flatMap indRowCmds).filter isHdrBand = [] := by
  induction l with
  | nil => rfl
  | cons r rs ih => simp [indRowCmds, ih]

@[simp] lemma indRow_flat_ftr (l : List IndicationRow) :
    (l.flatMap indRowCmds).filter isFtrBand = [] := by
  induction l with
  | nil => rfl
  | cons r rs ih => simp [indRowCmds, ih]

@[simp] lemma indRow_flat_metric (l : List IndicationRow) :
    (l.flatMap indRowCmds).filterMap metricSel = [] := by
  induction l with
  | nil => rfl
  | cons r rs ih => simp [indRowCmds, ih]

@[simp] lemma evid_flat_hdr (l : List EvidenceItem) :
    (l.flatMap evidItemCmds).filter isHdrBand = [] := by
  induction l with
  | nil => rfl
  | cons r rs ih => simp [evidItemCmds, ih]

@[simp] lemma evid_flat_ftr (l : List EvidenceItem) :
    (l.flatMap evidItemCmds).filter isFtrBand = [] := by
  induction l with
  | nil => rfl
  | cons r rs ih => simp [evidItemCmds, ih]

@[simp] lemma evid_flat_metric (l : List EvidenceItem) :
    (l.flatMap evidItemCmds).filterMap metricSel = [] := by
  induction l with
  | nil => rfl
  | cons r rs ih => simp [evidItemCmds, ih]

@[simp] lemma comp_flat_hdr (l : List Competitor) :
    (l.flatMap compRowCmds).filter isHdrBand = [] := by
  induction l with
  | nil => rfl
  | cons r rs ih => simp [compRowCmds, ih]

@[simp] lemma comp_flat_ftr (l : List Competitor) :
    (l.flatMap compRowCmds).filter isFtrBand = [] := by
  induction l with
  | nil => rfl
  | cons r rs ih => simp [compRowCmds, ih]

@[simp] lemma comp_flat_metric (l : List Competitor) :
    (l.flatMap compRowCmds).filterMap metricSel = [] := by
  induction l with
  | nil => rfl
  | cons r rs ih => simp [compRowCmds, ih]

@[simp] lemma act_flat_hdr (l : List (Nat × String)) :
    (l.flatMap (fun ia => actionCmds (ia.1 + 1) ia.2)).filter isHdrBand = [] := by
  induction l with
  | nil => rfl
  | cons r rs ih =>
    simp only [List.flatMap_cons, List.filter_append, ih, List.append_nil]
    simp [actionCmds]

@[simp] lemma act_flat_ftr (l : List (Nat × String)) :
    (l.flatMap (fun ia => actionCmds (ia.1 + 1) ia.2)).filter isFtrBand = [] := by
  induction l with
  | nil => rfl
  | cons r rs ih =>
    simp only [List.flatMap_cons, List.filter_append, ih, List.append_nil]
    simp [actionCmds]

@[simp] lemma act_flat_metric (l : List (Nat × String)) :
    (l.flatMap (fun ia => actionCmds (ia.1 + 1) ia.2)).filterMap metricSel = [] := by
  induction l with
  | nil => rfl
  | cons r rs ih =>
    simp only [List.flatMap_cons, List.filterMap_append, ih, List.append_nil]
    simp [actionCmds]

/-- The document of a deep-dive result (the empty document on `KeyError`,
used only to state facts about successful generations). -/
def docOf (e : Except String (List (List Cmd) × Dossier)) : List (List Cmd) :=
  match e with
  | .ok r => r.1
  | .error _ => []

/-- The competitive-landscape table block (lines 303-323): nothing at all
when the sequence is empty (Python falsy), else the header row and one row
per competitor. -/
def compLandTableCmds (ctx : List Competitor) : List Cmd :=
  if ctx.isEmpty then []
  else
    [.setFont "Helvetica" "B" 9, .setFillColor 162 77 190, .setTextColor 255 255 255,
     .textCell 50 7 "Company" 1 0 "C" true, .textCell 50 7 "Drug" 1 0 "C" true,
     .textCell 40 7 "Phase" 1 0 "C" true, .textCell 50 7 "Status" 1 0 "C" true,
     .setFont "Helvetica" "" 9, .setTextColor 10 30 74]
    ++ ctx.flatMap compRowCmds

@[simp] lemma compLandTableCmds_hdr (ctx : List Competitor) :
    (compLandTableCmds ctx).filter isHdrBand = [] := by
  by_cases hc : ctx.isEmpty <;> simp [compLandTableCmds, hc]

@[simp] lemma compLandTableCmds_ftr (ctx : List Competitor) :
    (compLandTableCmds ctx).filter isFtrBand = [] := by
  by_cases hc : ctx.isEmpty <;> simp [compLandTableCmds, hc]

@[simp] lemma compLandTableCmds_metric (ctx : List Competitor) :
    (compLandTableCmds ctx).filterMap metricSel = [] := by
  by_cases hc : ctx.isEmpty <;> simp [compLandTableCmds, hc]

@[simp] lemma drawCompetitiveLandscape_cur (ctx : List Competitor) (p : ExcelraPDF) :
    (drawCompetitiveLandscape ctx p).cur
      = p.cur ++ [.setFont "Helvetica" "B" 14, .setTextColor 10 30 74,
          .textCell 0 10 "Competitive Landscape" 0 1 "L" false, .setDrawColor 162 77 190,
          .lineSeg 10 (p.y + 5 + 5 + 10) 80 (p.y + 5 + 5 + 10)]
        ++ compLandTableCmds ctx := by
  by_cases hc : ctx.isEmpty <;>
    simp [drawCompetitiveLandscape, compLandTableCmds, hc, ExcelraPDF.section_title,
      ExcelraPDF.set_font, ExcelraPDF.set_fill_color, ExcelraPDF.set_text_color,
      ExcelraPDF.set_draw_color, ExcelraPDF.draw_line, DEEP_BLUE_RGB, VIOLET_RGB, WHITE_RGB]

@[simp] lemma drawCompetitiveLandscape_pages (ctx : List Competitor) (p : ExcelraPDF) :
    (drawCompetitiveLandscape ctx p).pages = p.pages := by
  by_cases hc : ctx.isEmpty <;>
    simp [drawCompetitiveLandscape, hc, ExcelraPDF.section_title, ExcelraPDF.set_font,
      ExcelraPDF.set_fill_color, ExcelraPDF.set_text_color, ExcelraPDF.set_draw_color,
      ExcelraPDF.draw_line]

@[simp] lemma drawCompetitiveLandscape_pageNo (ctx : List Competitor) (p : ExcelraPDF) :
    (drawCompetitiveLandscape ctx p).pageNo = p.pageNo := by
  by_cases hc : ctx.isEmpty <;>
    simp [drawCompetitiveLandscape, hc, ExcelraPDF.section_title, ExcelraPDF.set_font,
      ExcelraPDF.set_fill_color, ExcelraPDF.set_text_color, ExcelraPDF.set_draw_color,
      ExcelraPDF.draw_line]

@[simp] lemma drawCompetitiveLandscape_logo (ctx : List Competitor) (p : ExcelraPDF) :
    (drawCompetitiveLandscape ctx p).logo_path = p.logo_path := by
  by_cases hc : ctx.isEmpty <;>
    simp [drawCompetitiveLandscape, hc, ExcelraPDF.section_title, ExcelraPDF.set_font,
      ExcelraPDF.set_fill_color, ExcelraPDF.set_text_color, ExcelraPDF.set_draw_color,
      ExcelraPDF.draw_line]

/-! ## Shared helper lemmas for the claims -/

set_option maxRecDepth 1000000

/-- The round-trip scenario input: 12 rows, scores `[9,8,8,7,6,5,4,3,2,1,1,0]`,
relevancy 3 Yes / 4 Partial / 5 No, in caller order. -/
def rowsC3 : List IndicationRow :=
  [⟨"Ind01", "Area1", 9, "Yes", []⟩, ⟨"Ind02", "Area2", 8, "Yes", []⟩,
   ⟨"Ind03", "Area3", 8, "Yes", []⟩, ⟨"Ind04", "Area4", 7, "Partial", []⟩,
   ⟨"Ind05", "Area5", 6, "Partial", []⟩, ⟨"Ind06", "Area6", 5, "Partial", []⟩,
   ⟨"Ind07", "Area7", 4, "Partial", []⟩, ⟨"Ind08", "Area8", 3, "No", []⟩,
   ⟨"Ind09", "Area9", 2, "No", []⟩, ⟨"Ind10", "Area10", 1, "No", []⟩,
   ⟨"Ind11", "Area11", 1, "No", []⟩, ⟨"Ind12", "Area12", 0, "No", []⟩]

/-- The discovery report for the round-trip scenario. -/
def discoveryC3Doc : List (List Cmd) :=
  (generate_indication_discovery_pdf "EGFR" rowsC3 none (fun _ => false) "01 January 2025").1

/-- A discovery report generated from the empty row sequence. -/
def discoveryEmptyDoc : List (List Cmd) :=
  (generate_indication_discovery_pdf "KRAS" [] none (fun _ => false) "02 January 2025").1

/-- A fully populated dossier whose `competitive_context` is the empty
sequence. -/
def dossierNoCompetitors : Dossier :=
  ⟨some 7, some "Validated", some "High", some "$1.2B by 2030",
   some "  **Strong** mechanistic rationale • supported by multiple sources  ",
   some [⟨"Literature Mining", "Multiple case reports", "High"⟩],
   some [], some ["KRAS G12C"], some ["Commission full dossier"]⟩

/-- The deep-dive report for `dossierNoCompetitors`. -/
def deepNoCompDoc : List (List Cmd) :=
  docOf (generate_deep_dive_pdf "KRAS" "Pancreatic Cancer" dossierNoCompetitors none
    (fun _ => false) "01 January 2025")

/-- A fully populated dossier whose `market_size` is `"$2.1B by 2028"`. -/
def dossierMarketSize : Dossier :=
  ⟨some 8, some "Validated", some "Medium", some "$2.1B by 2028", some "Rationale text",
   some [⟨"Clinical Trials", "Phase 1 signal", "Medium"⟩],
   some [⟨"Roche", "RG-123", "Phase 1", "Recruiting"⟩],
   some ["EGFR T790M"], some ["Plan a confirmatory trial"]⟩

/-- The deep-dive report for `dossierMarketSize`. -/
def deepMarketDoc : List (List Cmd) :=
  docOf (generate_deep_dive_pdf "EGFR" "NSCLC" dossierMarketSize none
    (fun _ => false) "01 January 2025")

/-- Three rows, one per relevancy value, for the C6 witness. -/
def rowsC6 : List IndicationRow :=
  [⟨"Pulmonary fibrosis", "Respiratory", 5, "Yes", []⟩,
   ⟨"Psoriatic arthritis", "Immunology", 3, "Partial", []⟩,
   ⟨"Gastric cancer", "Oncology", 1, "No", []⟩]

/-- A fully populated dossier for the C9 witness. -/
def dossierC9 : Dossier :=
  ⟨some 6, some "Partially Validated", some "Medium", some "$800M by 2029",
   some "Plain rationale", some [⟨"GWAS", "Risk locus", "High"⟩],
   some [⟨"Pfizer", "PF-001", "Phase 2", "Active"⟩], some ["IL-23"],
   some ["Engage KOLs"]⟩

/-- The second component of a deep-dive result: the caller's dict after the
call (all-`none` dummy on `KeyError`, where no value is returned at all). -/
def dosOf (e : Except String (List (List Cmd) × Dossier)) : Dossier :=
  match e with
  | .ok r => r.2
  | .error _ => ⟨none, none, none, none, none, none, none, none, none⟩

/-! ## The claims -/

/-- Claim C7 (confirmed).  Table-cell truncation (`str(...)[:n]`,
src/export.py lines 191-192) is budget-exact and idempotent: a string of at
most `n` code points is unchanged; a longer string is cut to exactly `n`;
truncating twice equals truncating once. -/
theorem C7_truncation (s : String) (n : Nat) :
    (s.length ≤ n → pyTruncate n s = s) ∧
    (n < s.length → (pyTruncate n s).length = n) ∧
    pyTruncate n (pyTruncate n s) = pyTruncate n s := by
  obtain ⟨data⟩ := s
  refine ⟨fun h => ?_, fun h => ?_, ?_⟩
  · exact congrArg String.mk (List.take_of_length_le h)
  · simp only [pyTruncate, String.length, List.length_take]
    simp only [String.length] at h
    omega
  · simp [pyTruncate, List.take_take]

/-- Witness for C7 at the two concrete budgets of the source (35 for the
indication name, 25 for the therapeutic area). -/
theorem C7_truncation_witness :
    ("Non-small cell lung cancer".length ≤ 35 ∧
      pyTruncate 35 "Non-small cell lung cancer" = "Non-small cell lung cancer") ∧
    (25 < "Chronic inflammatory demyelinating polyneuropathy".length ∧
      (pyTruncate 25 "Chronic inflammatory demyelinating polyneuropathy").length = 25) ∧
    pyTruncate 35 (pyTruncate 35 "Non-small cell lung cancer")
      = pyTruncate 35 "Non-small cell lung cancer" := by
  exact ⟨⟨by decide, (C7_truncation "Non-small cell lung cancer" 35).1 (by decide)⟩,
    ⟨by decide, (C7_truncation "Chronic inflammatory demyelinating polyneuropathy" 25).2.1 (by decide)⟩,
    (C7_truncation "Non-small cell lung cancer" 35).2.2⟩

/-- Claim C1, counterexample.  For the empty row sequence generation does
succeed, but the Top Score and Avg Score metric boxes do not contain 0:
pandas `max()`/`mean()` of an empty series are NaN and the f-strings render
them as `nan/9`, so NaN does appear in the output. -/
theorem C1_counterexample :
    (metricValues discoveryEmptyDoc)[3]? = some "nan/9" ∧
    (metricValues discoveryEmptyDoc)[4]? = some "nan/9" ∧
    ¬ (metricValues discoveryEmptyDoc)[3]? = some "0/9" ∧
    ¬ (metricValues discoveryEmptyDoc)[4]? = some "0.0/9" := by decide

/-- Claim C1 as amended.  For the empty sequence the generator succeeds
(it is total), the Total/Validated/Partial boxes and the summary text report
zero, but the Top Score and Avg Score boxes render the pandas NaN as
`nan/9` instead of 0. -/
theorem C1_amended_empty_input (target : String) (logo : Option String)
    (disk : String → Bool) (now : String) :
    metricValues (generate_indication_discovery_pdf target [] logo disk now).1
      = ["0", "0", "0", "nan/9", "nan/9"] ∧
    summaryText 0 target 0 0
      ∈ allTexts (generate_indication_discovery_pdf target [] logo disk now).1 := by
  constructor
  · simp [generate_indication_discovery_pdf, metricValues, ExcelraPDF.section_title,
      ExcelraPDF.body_text, ExcelraPDF.metric_box, ExcelraPDF.set_fill_color,
      ExcelraPDF.set_text_color, ExcelraPDF.set_draw_color, ExcelraPDF.set_font,
      ExcelraPDF.draw_line, ExcelraPDF.set_x, ExcelraPDF.rect, ExcelraPDF.draw_image,
      DEEP_BLUE_RGB, VIOLET_RGB, LIGHT_BLUE_RGB, SOFT_LAVENDER_RGB, WHITE_RGB,
      validatedCount, partialCount, pandasMaxStr, fmtMean1, List.filterMap_append]
    decide
  · simp [generate_indication_discovery_pdf, allTexts, ExcelraPDF.section_title,
      ExcelraPDF.body_text, ExcelraPDF.metric_box, ExcelraPDF.set_fill_color,
      ExcelraPDF.set_text_color, ExcelraPDF.set_draw_color, ExcelraPDF.set_font,
      ExcelraPDF.draw_line, ExcelraPDF.set_x, ExcelraPDF.rect, ExcelraPDF.draw_image,
      DEEP_BLUE_RGB, VIOLET_RGB, LIGHT_BLUE_RGB, SOFT_LAVENDER_RGB, WHITE_RGB,
      validatedCount, partialCount, List.filterMap_append]

/-- Claim C3, counterexample.  On the round-trip scenario input the Avg
Score box shows `4.5/9` — the mean of `[9,8,8,7,6,5,4,3,2,1,1,0]` is 4.5,
not the 4.6 the claim states. -/
theorem C3_counterexample :
    (metricValues discoveryC3Doc)[4]? = some "4.5/9" ∧
    ¬ (metricValues discoveryC3Doc)[4]? = some "4.6/9" := by decide

/-- Claim C3 as amended.  The five metric boxes show Total = 12,
Validated = 3, Partial = 4, Top Score = 9/9 and Avg Score = 4.5/9 (not
4.6/9), and the table holds exactly the first 10 rows in caller order. -/
theorem C3_amended_metrics :
    metricValues discoveryC3Doc = ["12", "3", "4", "9/9", "4.5/9"] ∧
    discoveryCol1 discoveryC3Doc
      = (rowsC3.take 10).map (fun r => pyTruncate 35 r.indication_name) ∧
    (rowsC3.take 10).map (fun r => pyTruncate 35 r.indication_name)
      = ["Ind01", "Ind02", "Ind03", "Ind04", "Ind05",
         "Ind06", "Ind07", "Ind08", "Ind09", "Ind10"] := by decide

/-- Claim C5, counterexample.  For `market_size = "$2.1B by 2028"` the
metric-box value is `"$2.1B\n 2028"`: the second line is `" 2028"` with a
leading space (only `" by"` is replaced, the following space stays), not
`"2028"`. -/
theorem C5_counterexample :
    (metricValues deepMarketDoc)[3]? = some "$2.1B\n 2028" ∧
    ((metricValues deepMarketDoc)[3]?.map pyLines) = some ["$2.1B", " 2028"] ∧
    ¬ ((metricValues deepMarketDoc)[3]?.map pyLines) = some ["$2.1B", "2028"] := by decide

/-- Claim C5 as amended.  For every dossier whose `market_size` is
`"$2.1B by 2028"`, the Market Size box value is the two-line string
`"$2.1B\n 2028"` — lines `"$2.1B"` and `" 2028"`, the second keeping the
space that followed `" by"`. -/
theorem C5_amended_market_size (t i : String) (l : Option String) (disk : String → Bool)
    (now : String) (f : Int) (v u b : String) (kev : List EvidenceItem)
    (ctx : List Competitor) (bios acts : List String) :
    (metricValues (docOf (generate_deep_dive_pdf t i
        ⟨some f, some v, some u, some "$2.1B by 2028", some b, some kev, some ctx,
         some bios, some acts⟩ l disk now)))[3]? = some "$2.1B\n 2028" ∧
    pyReplace "$2.1B by 2028" " by" "\n" = "$2.1B\n 2028" ∧
    pyLines "$2.1B\n 2028" = ["$2.1B", " 2028"] := by
  refine ⟨?_, by decide, by decide⟩
  simp [generate_deep_dive_pdf, getKey, docOf, metricValues, Bind.bind, Except.bind,
    Pure.pure, Except.pure, Except.instMonad, ExcelraPDF.section_title,
    ExcelraPDF.body_text, ExcelraPDF.metric_box, ExcelraPDF.set_fill_color,
    ExcelraPDF.set_text_color, ExcelraPDF.set_draw_color, ExcelraPDF.set_font,
    ExcelraPDF.draw_line, ExcelraPDF.set_x, ExcelraPDF.rect, ExcelraPDF.draw_image,
    DEEP_BLUE_RGB, VIOLET_RGB, LIGHT_BLUE_RGB, SOFT_LAVENDER_RGB, WHITE_RGB,
    List.filterMap_append]
  decide

/-- Claim C2, counterexample.  For a dossier with an empty
`competitive_context`, nothing at all is rendered between the Competitive
Landscape section title and the next section — there is no "no competitors"
placeholder (no text containing "competitor" appears anywhere). -/
theorem C2_counterexample :
    textsBetween deepNoCompDoc "Competitive Landscape" "Key Biomarkers" = [] ∧
    (allTexts deepNoCompDoc).all (fun s => !(hasSubstr s "competitor")) = true ∧
    (allTexts deepNoCompDoc).all (fun s => !(hasSubstr s "No competitors")) = true := by
  decide

/-- Claim C2 as amended.  With an empty `competitive_context` the section
renders the title and then nothing — no placeholder message and no table;
the table (header row and one row per competitor) is drawn exactly when the
sequence is non-empty. -/
theorem C2_amended_no_placeholder (p : ExcelraPDF) (ctx : List Competitor) :
    drawCompetitiveLandscape [] p = (p.lnBy 5).section_title "Competitive Landscape" ∧
    compLandTableCmds [] = [] ∧
    (ctx ≠ [] → compLandTableCmds ctx
        = [.setFont "Helvetica" "B" 9, .setFillColor 162 77 190, .setTextColor 255 255 255,
           .textCell 50 7 "Company" 1 0 "C" true, .textCell 50 7 "Drug" 1 0 "C" true,
           .textCell 40 7 "Phase" 1 0 "C" true, .textCell 50 7 "Status" 1 0 "C" true,
           .setFont "Helvetica" "" 9, .setTextColor 10 30 74]
          ++ ctx.flatMap compRowCmds) := by
  refine ⟨rfl, rfl, fun h => ?_⟩
  cases ctx with
  | nil => exact absurd rfl h
  | cons c cs => simp [compLandTableCmds]

/-- Witness for C2 as amended, at a one-element competitive context. -/
theorem C2_amended_no_placeholder_witness :
    compLandTableCmds [⟨"Novartis", "NVX-1", "Phase 2", "Active"⟩]
      = [.setFont "Helvetica" "B" 9, .setFillColor 162 77 190, .setTextColor 255 255 255,
         .textCell 50 7 "Company" 1 0 "C" true, .textCell 50 7 "Drug" 1 0 "C" true,
         .textCell 40 7 "Phase" 1 0 "C" true, .textCell 50 7 "Status" 1 0 "C" true,
         .setFont "Helvetica" "" 9, .setTextColor 10 30 74]
        ++ ([⟨"Novartis", "NVX-1", "Phase 2", "Active"⟩] : List Competitor).flatMap compRowCmds :=
  (C2_amended_no_placeholder (ExcelraPDF.mkNew none) _).2.2 (by decide)

/-- Claim C6 (confirmed).  For every non-empty row sequence whose
`relevancy` values range over {Yes, Partial, No}, the counts embedded in
the discovery report satisfy `validated + partial + other = total` with
`total = len(rows)`, and the report's metric boxes indeed embed exactly
these counts. -/
theorem C6_count_identity (rows : List IndicationRow) (hne : rows ≠ [])
    (hrel : ∀ r ∈ rows, r.relevancy = "Yes" ∨ r.relevancy = "Partial" ∨ r.relevancy = "No")
    (t : String) (l : Option String) (disk : String → Bool) (now : String) :
    validatedCount rows + partialCount rows + otherCount rows = rows.length ∧
    metricValues (generate_indication_discovery_pdf t rows l disk now).1
      = [toString rows.length, toString (validatedCount rows), toString (partialCount rows),
         pandasMaxStr (rows.map (fun r => r.frequency_score)) ++ "/9",
         fmtMean1 (rows.map (fun r => r.frequency_score)) ++ "/9"] := by
  constructor
  · clear hne
    induction rows with
    | nil => rfl
    | cons r rs ih =>
      have hr := hrel r (List.mem_cons_self r rs)
      have ih' := ih (fun x hx => hrel x (List.mem_cons_of_mem _ hx))
      rcases hr with h1 | h1 | h1 <;>
        simp [validatedCount, partialCount, otherCount, List.filter_cons, h1] at ih' ⊢ <;>
        omega
  · simp [generate_indication_discovery_pdf, metricValues, ExcelraPDF.section_title,
      ExcelraPDF.body_text, ExcelraPDF.metric_box, ExcelraPDF.set_fill_color,
      ExcelraPDF.set_text_color, ExcelraPDF.set_draw_color, ExcelraPDF.set_font,
      ExcelraPDF.draw_line, ExcelraPDF.set_x, ExcelraPDF.rect, ExcelraPDF.draw_image,
      DEEP_BLUE_RGB, VIOLET_RGB, LIGHT_BLUE_RGB, SOFT_LAVENDER_RGB, WHITE_RGB,
      List.filterMap_append]

/-- Witness for C6 at a three-row table with one row per relevancy value. -/
theorem C6_count_identity_witness :
    rowsC6 ≠ [] ∧
    (validatedCount rowsC6 + partialCount rowsC6 + otherCount rowsC6 = rowsC6.length ∧
     metricValues (generate_indication_discovery_pdf "TP53" rowsC6 none
         (fun _ => false) "01 January 2025").1
       = [toString rowsC6.length, toString (validatedCount rowsC6),
          toString (partialCount rowsC6),
          pandasMaxStr (rowsC6.map (fun r => r.frequency_score)) ++ "/9",
          fmtMean1 (rowsC6.map (fun r => r.frequency_score)) ++ "/9"]) :=
  ⟨by decide, C6_count_identity rowsC6 (by decide) (by decide) "TP53" none
    (fun _ => false) "01 January 2025"⟩

/-- Claim C9 (confirmed).  Neither generator mutates its inputs: the
discovery call leaves the rows table exactly as passed, and a successful
deep-dive call returns the dossier exactly as passed (the source only
rebinds the local name `rationale`; it never writes into `dossier_data`). -/
theorem C9_inputs_unchanged (t : String) (rows : List IndicationRow) (l : Option String)
    (disk : String → Bool) (now : String) :
    (generate_indication_discovery_pdf t rows l disk now).2 = rows ∧
    ∀ (i : String) (d : Dossier) (doc : List (List Cmd)) (d' : Dossier),
      generate_deep_dive_pdf t i d l disk now = .ok (doc, d') → d' = d := by
  refine ⟨rfl, ?_⟩
  intro i d doc d' h
  obtain ⟨f1, f2, f3, f4, f5, f6, f7, f8, f9⟩ := d
  cases f1 with
  | none => exact absurd h (by simp [generate_deep_dive_pdf, getKey, Bind.bind,
      Except.bind, Except.instMonad])
  | some a1 =>
  cases f2 with
  | none => exact absurd h (by simp [generate_deep_dive_pdf, getKey, Bind.bind,
      Except.bind, Except.instMonad])
  | some a2 =>
  cases f3 with
  | none => exact absurd h (by simp [generate_deep_dive_pdf, getKey, Bind.bind,
      Except.bind, Except.instMonad])
  | some a3 =>
  cases f4 with
  | none => exact absurd h (by simp [generate_deep_dive_pdf, getKey, Bind.bind,
      Except.bind, Except.instMonad])
  | some a4 =>
  cases f5 with
  | none => exact absurd h (by simp [generate_deep_dive_pdf, getKey, Bind.bind,
      Except.bind, Except.instMonad])
  | some a5 =>
  cases f6 with
  | none => exact absurd h (by simp [generate_deep_dive_pdf, getKey, Bind.bind,
      Except.bind, Except.instMonad])
  | some a6 =>
  cases f7 with
  | none => exact absurd h (by simp [generate_deep_dive_pdf, getKey, Bind.bind,
      Except.bind, Except.instMonad])
  | some a7 =>
  cases f8 with
  | none => exact absurd h (by simp [generate_deep_dive_pdf, getKey, Bind.bind,
      Except.bind, Except.instMonad])
  | some a8 =>
  cases f9 with
  | none => exact absurd h (by simp [generate_deep_dive_pdf, getKey, Bind.bind,
      Except.bind, Except.instMonad])
  | some a9 =>
    simp only [generate_deep_dive_pdf, getKey, Bind.bind, Except.bind, Except.instMonad,
      Pure.pure, Except.pure, Except.ok.injEq, Prod.mk.injEq] at h
    exact h.2.symm

/-- Witness for C9 at a concrete fully populated dossier. -/
theorem C9_inputs_unchanged_witness :
    (generate_indication_discovery_pdf "IL23" rowsC6 none (fun _ => false)
        "01 January 2025").2 = rowsC6 ∧
    dosOf (generate_deep_dive_pdf "IL23" "Psoriasis" dossierC9 none
        (fun _ => false) "01 January 2025") = dossierC9 := by
  exact ⟨rfl, (C9_inputs_unchanged "IL23" rowsC6 none (fun _ => false) "01 January 2025").2
    "Psoriasis" dossierC9 _ _ (by rfl)⟩

/-- Python dict success test used to state C10: `true` exactly on `ok`. -/
def exceptOk {ε α : Type} : Except ε α → Bool
  | .ok _ => true
  | .error _ => false

/-- Claim C10 (confirmed).  A dossier missing any one of the nine required
keys makes `generate_deep_dive_pdf` raise (`KeyError` from dict
subscription) and return no buffer; no default is ever substituted. -/
theorem C10_missing_key_raises (d : Dossier) (t i : String) (l : Option String)
    (disk : String → Bool) (now : String)
    (h : d.frequency_score = none ∨ d.validation_status = none ∨ d.unmet_need = none ∨
         d.market_size = none ∨ d.biological_rationale = none ∨ d.key_evidence = none ∨
         d.competitive_context = none ∨ d.key_biomarkers = none ∨
         d.recommended_actions = none) :
    exceptOk (generate_deep_dive_pdf t i d l disk now) = false := by
  obtain ⟨f1, f2, f3, f4, f5, f6, f7, f8, f9⟩ := d
  cases f1 with
  | none => simp [generate_deep_dive_pdf, getKey, Bind.bind, Except.bind,
      Except.instMonad, exceptOk]
  | some a1 =>
  cases f2 with
  | none => simp [generate_deep_dive_pdf, getKey, Bind.bind, Except.bind,
      Except.instMonad, exceptOk]
  | some a2 =>
  cases f3 with
  | none => simp [generate_deep_dive_pdf, getKey, Bind.bind, Except.bind,
      Except.instMonad, exceptOk]
  | some a3 =>
  cases f4 with
  | none => simp [generate_deep_dive_pdf, getKey, Bind.bind, Except.bind,
      Except.instMonad, exceptOk]
  | some a4 =>
  cases f5 with
  | none => simp [generate_deep_dive_pdf, getKey, Bind.bind, Except.bind,
      Except.instMonad, exceptOk]
  | some a5 =>
  cases f6 with
  | none => simp [generate_deep_dive_pdf, getKey, Bind.bind, Except.bind,
      Except.instMonad, exceptOk]
  | some a6 =>
  cases f7 with
  | none => simp [generate_deep_dive_pdf, getKey, Bind.bind, Except.bind,
      Except.instMonad, exceptOk]
  | some a7 =>
  cases f8 with
  | none => simp [generate_deep_dive_pdf, getKey, Bind.bind, Except.bind,
      Except.instMonad, exceptOk]
  | some a8 =>
  cases f9 with
  | none => simp [generate_deep_dive_pdf, getKey, Bind.bind, Except.bind,
      Except.instMonad, exceptOk]
  | some a9 =>
    rcases h with h | h | h | h | h | h | h | h | h <;> exact Option.noConfusion h

/-- Witness for C10: a dossier whose `frequency_score` key is absent. -/
theorem C10_missing_key_raises_witness :
    exceptOk (generate_deep_dive_pdf "EGFR" "NSCLC"
      ⟨none, some "Validated", some "High", some "$1B by 2030", some "rationale",
       some [], some [], some [], some []⟩ none (fun _ => false) "01 January 2025")
      = false :=
  C10_missing_key_raises _ "EGFR" "NSCLC" none (fun _ => false) "01 January 2025"
    (Or.inl rfl)
